import Mathlib

/-!
Verification of the AMDEC spreadsheet import/export core
(`src/amdec/utils/excel_handler.py`, `src/amdec/utils/validators.py`,
`src/amdec/models.py`) against its natural-language specification.

The Python code is shallowly embedded: cell values become an inductive
`Cell`, Python exceptions become `Except PyErr`, Python floats produced by
`float(str)` become exact rationals plus `inf`/`nan` markers (with the
double-overflow threshold modelled as `2^1024`), and the mutable
`warnings`/`errors` lists of the importer become explicit list-valued
outputs.  String primitives (`strip`, `lower`, `upper`, substring test,
`split`) are modelled for ASCII plus the Latin-1 letters used by the
French keywords of the source.
-/

set_option maxRecDepth 10000

deriving instance DecidableEq for Except

namespace Amdec

/-- A spreadsheet cell value as seen through openpyxl with
`values_only=True`: `None`, a string, or an integer. -/
inductive Cell where
  | empty
  | s (v : String)
  | i (v : Int)
deriving DecidableEq

/-- Python `str(value)` on a cell value. -/
def Cell.pyStr : Cell → String
  | .empty => "None"
  | .s v => v
  | .i v => toString v

/-- Python truthiness of a cell value (`if cell: ...`). -/
def Cell.truthy : Cell → Bool
  | .empty => false
  | .s v => v ≠ ""
  | .i v => v ≠ 0

/-- The whitespace characters stripped by Python `str.strip()`. -/
def isPySpace (c : Char) : Bool :=
  c = ' ' ∨ c = '\t' ∨ c = '\n' ∨ c = '\r' ∨ c = '\x0b' ∨ c = '\x0c'

def pyStripL (l : List Char) : List Char :=
  ((l.dropWhile isPySpace).reverse.dropWhile isPySpace).reverse

/-- Python `str.strip()` (ASCII whitespace model). -/
def pyStrip (s : String) : String := String.mk (pyStripL s.toList)

/-- Python `str.lower()` on one character: ASCII letters and the Latin-1
uppercase letters (À–Þ except ×) map down by 32. -/
def pyLowerChar (c : Char) : Char :=
  if 'A' ≤ c ∧ c ≤ 'Z' then Char.ofNat (c.toNat + 32)
  else if 0xC0 ≤ c.toNat ∧ c.toNat ≤ 0xDE ∧ c.toNat ≠ 0xD7 then Char.ofNat (c.toNat + 32)
  else c

/-- Python `str.lower()` (ASCII + Latin-1 model). -/
def pyLower (s : String) : String := String.mk (s.toList.map pyLowerChar)

/-- Python `str.upper()` on one character (ASCII + Latin-1 model,
including `ß → SS` and `ÿ → Ÿ`). -/
def pyUpperChars (c : Char) : List Char :=
  if 'a' ≤ c ∧ c ≤ 'z' then [Char.ofNat (c.toNat - 32)]
  else if c.toNat = 0xDF then ['S', 'S']
  else if c.toNat = 0xFF then [Char.ofNat 0x178]
  else if 0xE0 ≤ c.toNat ∧ c.toNat ≤ 0xFE ∧ c.toNat ≠ 0xF7 then [Char.ofNat (c.toNat - 32)]
  else [c]

/-- Python `str.upper()` (ASCII + Latin-1 model). -/
def pyUpper (s : String) : String := String.mk (s.toList.map pyUpperChars).flatten

/-- Does the second list start with the first one? -/
def leadsWith : List Char → List Char → Bool
  | [], _ => true
  | _ :: _, [] => false
  | a :: as, b :: bs => a = b && leadsWith as bs

/-- Does `pat` occur as a contiguous sublist? -/
def hasSubList (pat : List Char) : List Char → Bool
  | [] => pat.isEmpty
  | c :: rest => leadsWith pat (c :: rest) || hasSubList pat rest

/-- Python substring containment `pat in hay`. -/
def containsSub (hay pat : String) : Bool := hasSubList pat.toList hay.toList

/-- Fuel-driven list version of `str.replace` (left-to-right,
non-overlapping); the fuel is at least `length + 1` at every call site, so
it never runs out. -/
def replaceLF : Nat → List Char → List Char → List Char → List Char
  | 0, _, _, l => l
  | _ + 1, _, _, [] => []
  | fuel + 1, pat, rep, c :: rest =>
    if pat ≠ [] ∧ leadsWith pat (c :: rest) then
      rep ++ replaceLF fuel pat rep ((c :: rest).drop pat.length)
    else c :: replaceLF fuel pat rep rest

/-- Python `s.replace(pat, rep)` for a non-empty `pat`. -/
def pyReplace (s pat rep : String) : String :=
  String.mk (replaceLF (s.toList.length + 1) pat.toList rep.toList s.toList)

/-- Fuel-driven list version of `str.split(sep)`. -/
def splitOnLF : Nat → List Char → List Char → List Char → List (List Char)
  | 0, _, acc, _ => [acc.reverse]
  | _ + 1, _, acc, [] => [acc.reverse]
  | fuel + 1, sep, acc, c :: rest =>
    if sep ≠ [] ∧ leadsWith sep (c :: rest) then
      acc.reverse :: splitOnLF fuel sep [] ((c :: rest).drop sep.length)
    else splitOnLF fuel sep (c :: acc) rest

/-- Python `s.split(sep)` for a non-empty separator. -/
def splitOnL (sep l : List Char) : List (List Char) := splitOnLF (l.length + 1) sep [] l

/-- Join words with single spaces (`' '.join(parts)`). -/
def joinWords : List (List Char) → List Char
  | [] => []
  | [w] => w
  | w :: rest => w ++ ' ' :: joinWords rest

/-- Python `str.split()` with no argument: split on whitespace runs,
dropping empty pieces. -/
def pyWords : List Char → List Char → List (List Char)
  | [], acc => if acc.isEmpty then [] else [acc.reverse]
  | c :: rest, acc =>
    if isPySpace c then
      if acc.isEmpty then pyWords rest [] else acc.reverse :: pyWords rest []
    else pyWords rest (c :: acc)

/-- `ExcelImporter._clean_text`: `str`, `strip`, normalise CR/CRLF, then
`' '.join(text.split())`. -/
def cleanTextI (value : Cell) : String :=
  match value with
  | .empty => ""
  | v =>
    let text := pyStrip v.pyStr
    let text := pyReplace (pyReplace text "\r\n" "\n") "\r" "\n"
    String.mk (joinWords (pyWords text.toList []))

/-- Python exceptions relevant to the embedded code. -/
inductive PyErr where
  | valueError
  | typeError
  | overflowError
  | nameError
deriving DecidableEq

/-- The result of Python `float(...)`: an exact rational, an infinity, or
NaN. -/
inductive PyFloat where
  | finite (q : ℚ)
  | inf
  | negInf
  | nan
deriving DecidableEq

/-- Consume a CPython digit run `digit (["_"] digit)*` after one digit has
already been consumed; returns the digits (underscores removed) and the
unconsumed remainder. -/
def digitsUAux : List Char → List Char → (List Char × List Char)
  | '_' :: c :: rest, acc =>
    if c.isDigit then digitsUAux rest (c :: acc) else (acc.reverse, '_' :: c :: rest)
  | c :: rest, acc =>
    if c.isDigit then digitsUAux rest (c :: acc) else (acc.reverse, c :: rest)
  | [], acc => (acc.reverse, [])

/-- Parse a CPython digit run `digit (["_"] digit)*`. -/
def digitsU : List Char → Option (List Char × List Char)
  | c :: rest => if c.isDigit then some (digitsUAux rest [c]) else none
  | [] => none

def natOfDigits (l : List Char) : Nat :=
  l.foldl (fun n c => 10 * n + (c.toNat - 48)) 0

/-- Parse the mantissa of a Python float literal: `digits [. [digits]]`
or `. digits`; returns its exact rational value and the remainder. -/
def parseMantissa (l : List Char) : Option (ℚ × List Char) :=
  match digitsU l with
  | some (ip, rest) =>
    match rest with
    | '.' :: rest2 =>
      match digitsU rest2 with
      | some (fp, rest3) =>
          some ((natOfDigits (ip ++ fp) : ℚ) / (10 : ℚ) ^ fp.length, rest3)
      | none => some ((natOfDigits ip : ℚ), rest2)
    | _ => some ((natOfDigits ip : ℚ), rest)
  | none =>
    match l with
    | '.' :: rest2 =>
      match digitsU rest2 with
      | some (fp, rest3) =>
          some ((natOfDigits fp : ℚ) / (10 : ℚ) ^ fp.length, rest3)
      | none => none
    | _ => none

/-- Parse the exponent part `("e"|"E") [sign] digits` of a Python float
literal. -/
def parseExp (l : List Char) : Option (Int × List Char) :=
  match l with
  | c :: rest =>
    if c = 'e' ∨ c = 'E' then
      match rest with
      | '+' :: r2 => (digitsU r2).map (fun p => ((natOfDigits p.1 : Int), p.2))
      | '-' :: r2 => (digitsU r2).map (fun p => (-(natOfDigits p.1 : Int), p.2))
      | _ => (digitsU rest).map (fun p => ((natOfDigits p.1 : Int), p.2))
    else none
  | [] => none

def qPow10 (e : Int) : ℚ :=
  if 0 ≤ e then (10 : ℚ) ^ e.toNat else 1 / (10 : ℚ) ^ (-e).toNat

/-- The IEEE-754 double overflow threshold, `2^1024`, as an integer. -/
def dblMax : Int := ((2 ^ 1024 : Nat) : Int)

/-- Does the exact rational overflow the double range upward /
downward? (Model of rounding-to-infinity at the top of the double range.) -/
def overflowsPos (q : ℚ) : Bool := dblMax * (q.den : Int) ≤ q.num

def overflowsNeg (q : ℚ) : Bool := q.num ≤ -(dblMax * (q.den : Int))

/-- Python `float(s)` on a string: optional sign, `inf`/`infinity`/`nan`
(case-insensitive), or a decimal literal with optional exponent; values at
or beyond the double range are taken to overflow to an infinity. -/
def pyFloatOfString (s : String) : Option PyFloat :=
  let l := pyStripL s.toList
  let sl : Bool × List Char :=
    match l with
    | '+' :: r => (false, r)
    | '-' :: r => (true, r)
    | _ => (false, l)
  let neg := sl.1
  let body := sl.2
  let low := body.map pyLowerChar
  if low = "inf".toList ∨ low = "infinity".toList then
    some (if neg then .negInf else .inf)
  else if low = "nan".toList then some .nan
  else
    match parseMantissa body with
    | none => none
    | some (m, rest) =>
      let qr : ℚ × List Char :=
        match parseExp rest with
        | some (e, r) => (m * qPow10 e, r)
        | none => (m, rest)
      if qr.2 = [] then
        let q := if neg then -qr.1 else qr.1
        if overflowsPos q then some .inf
        else if overflowsNeg q then some .negInf
        else some (.finite q)
      else none

/-- Python `int(f)` on a float: truncation toward zero; `OverflowError` on
infinities, `ValueError` on NaN. -/
def PyFloat.trunc : PyFloat → Except PyErr Int
  | .finite q => .ok (Int.tdiv q.num (q.den : Int))
  | .inf => .error .overflowError
  | .negInf => .error .overflowError
  | .nan => .error .valueError

/-- `int(float(str(value)))` as performed by the importer. -/
def intFloatStr (value : Cell) : Except PyErr Int :=
  match pyFloatOfString value.pyStr with
  | none => .error .valueError
  | some f => f.trunc

/-- The out-of-range warning emitted by `ExcelImporter._parse_score`. -/
def scoreWarnMsg (rowNum : Nat) (fieldName : String) (score : Int) : String :=
  "Ligne " ++ toString rowNum ++ ": " ++ fieldName ++ " = " ++ toString score ++
    " hors limites [1-10], valeur limitée à " ++ toString (min 10 (max 1 score))

/-- The invalid-value error emitted by `ExcelImporter._parse_score`. -/
def scoreErrMsg (rowNum : Nat) (fieldName : String) (value : Cell) : String :=
  "Ligne " ++ toString rowNum ++ ": " ++ fieldName ++ " invalide '" ++ value.pyStr ++
    "', utilisation de la valeur par défaut 5"

/-- `ExcelImporter._parse_score`: returns the score together with the
warnings and errors it appends; `ValueError`/`TypeError` are caught (the
default 5 is substituted), other exceptions propagate. -/
def parseScoreE (value : Cell) (fieldName : String) (rowNum : Nat) :
    Except PyErr (Int × List String × List String) :=
  match intFloatStr value with
  | .error .overflowError => .error .overflowError
  | .error _ => .ok (5, [], [scoreErrMsg rowNum fieldName value])
  | .ok score =>
    if 1 ≤ score ∧ score ≤ 10 then .ok (score, [], [])
    else .ok (min 10 (max 1 score), [scoreWarnMsg rowNum fieldName score], [])

/-- `validators.get_criticality_level`. -/
def get_criticality_level (criticality : Int) : String :=
  if criticality ≤ 60 then "FAIBLE"
  else if criticality ≤ 120 then "MODÉRÉE"
  else "ÉLEVÉE"

/-- A calendar date as produced by `datetime.date`. -/
structure PyDate where
  year : Nat
  month : Nat
  day : Nat
deriving DecidableEq

/-- `FailureMode` record of `models.py` (the fields the core logic reads). -/
structure FailureRec where
  component : String
  failure_mode : String
  potential_cause : String
  effect : String
  gravity : Int
  occurrence : Int
  detection : Int
  preventive_actions : Option String
  responsible : Option String
  deadline : Option PyDate
deriving DecidableEq

/-- `FailureMode.criticality`: G × O × D. -/
def FailureRec.criticality (f : FailureRec) : Int :=
  f.gravity * f.occurrence * f.detection

/-- `FailureMode.criticality_level`. -/
def FailureRec.criticality_level (f : FailureRec) : String :=
  if f.criticality ≤ 60 then "FAIBLE"
  else if f.criticality ≤ 120 then "MODÉRÉE"
  else "ÉLEVÉE"

/-- A `FailureRec` with given scores and blank text fields, used to state
score-only properties. -/
def mkScoredFailure (g o d : Int) : FailureRec :=
  ⟨"c", "m", "", "", g, o, d, none, none, none⟩

/-- C4: for all g,o,d ∈ [1,10] the derived criticality level of g·o·d is
FAIBLE iff the product is ≤ 60, MODÉRÉE iff it is in 61–120 and ÉLEVÉE iff
it is > 120, both for `validators.get_criticality_level` and for the
`FailureMode.criticality_level` property. -/
theorem c4_criticality_bands (g o d : Int)
    (hg : 1 ≤ g ∧ g ≤ 10) (ho : 1 ≤ o ∧ o ≤ 10) (hd : 1 ≤ d ∧ d ≤ 10) :
    (get_criticality_level (g * o * d) = "FAIBLE" ↔ g * o * d ≤ 60) ∧
    (get_criticality_level (g * o * d) = "MODÉRÉE" ↔ (61 ≤ g * o * d ∧ g * o * d ≤ 120)) ∧
    (get_criticality_level (g * o * d) = "ÉLEVÉE" ↔ 120 < g * o * d) ∧
    ((mkScoredFailure g o d).criticality_level = get_criticality_level (g * o * d)) := by
  have hcrit : (mkScoredFailure g o d).criticality = g * o * d := rfl
  unfold get_criticality_level FailureRec.criticality_level
  rw [hcrit]
  split_ifs with h60 h120
  · exact ⟨iff_of_true rfl h60, iff_of_false (by decide) (by omega),
      iff_of_false (by decide) (by omega), rfl⟩
  · exact ⟨iff_of_false (by decide) (by omega), iff_of_true rfl (by omega),
      iff_of_false (by decide) (by omega), rfl⟩
  · exact ⟨iff_of_false (by decide) (by omega), iff_of_false (by decide) (by omega),
      iff_of_true rfl (by omega), rfl⟩

/-- Witness for C4 at g = 5, o = 4, d = 3 (criticality 60, FAIBLE). -/
theorem c4_criticality_bands_witness :
    (get_criticality_level (5 * 4 * 3) = "FAIBLE" ↔ 5 * 4 * 3 ≤ (60 : Int)) ∧
    (get_criticality_level (5 * 4 * 3) = "MODÉRÉE" ↔
      (61 ≤ (5 : Int) * 4 * 3 ∧ (5 : Int) * 4 * 3 ≤ 120)) ∧
    (get_criticality_level (5 * 4 * 3) = "ÉLEVÉE" ↔ (120 : Int) < 5 * 4 * 3) ∧
    ((mkScoredFailure 5 4 3).criticality_level = get_criticality_level (5 * 4 * 3)) :=
  c4_criticality_bands 5 4 3 (by decide) (by decide) (by decide)

/-! ### Clock and reference validation (`validators.validate_reference`) -/

/-- The wall-clock reading used by `datetime.now().strftime(...)`. -/
structure Clock where
  year : Nat
  month : Nat
  day : Nat
  hour : Nat
  minute : Nat
  second : Nat
deriving DecidableEq

/-- Two-digit zero-padded decimal (`%m`, `%d`, `%H`, `%M`, `%S`). -/
def pad2 (n : Nat) : List Char :=
  if n < 100 then [Nat.digitChar (n / 10), Nat.digitChar (n % 10)]
  else (toString n).toList

/-- Four-digit zero-padded decimal (`%Y`). -/
def pad4 (n : Nat) : List Char :=
  if n < 10000 then
    [Nat.digitChar (n / 1000), Nat.digitChar (n / 100 % 10),
     Nat.digitChar (n / 10 % 10), Nat.digitChar (n % 10)]
  else (toString n).toList

/-- `f"AMDEC-{datetime.now().strftime('%Y%m%d-%H%M%S')}"`. -/
def autoRef (c : Clock) : String :=
  String.mk ('A' :: 'M' :: 'D' :: 'E' :: 'C' :: '-' ::
    (pad4 c.year ++ pad2 c.month ++ pad2 c.day ++ ['-'] ++
     pad2 c.hour ++ pad2 c.minute ++ pad2 c.second))

/-- Character class of the reference pattern `[A-Z0-9\-_]`. -/
def refClassChar (ch : Char) : Bool :=
  ('A' ≤ ch ∧ ch ≤ 'Z') ∨ ('0' ≤ ch ∧ ch ≤ '9') ∨ ch = '-' ∨ ch = '_'

/-- `re.match(r'^[A-Z0-9\-_]+$', s)` (on the stripped and uppercased input
handed to it, which cannot end in a newline). -/
def refRegexOk (s : String) : Bool := s ≠ "" && s.toList.all refClassChar

def refErrFormat (r : String) : String :=
  "❌ Référence invalide: '" ++ r ++ "'. Utilisez uniquement lettres, chiffres et tirets."

def refErrLong (n : Nat) : String :=
  "❌ Référence trop longue: " ++ toString n ++ " caractères. Maximum autorisé: 50 caractères."

def refErrShort (n : Nat) : String :=
  "❌ Référence trop courte: " ++ toString n ++ " caractères. Minimum requis: 3 caractères."

/-- `validators.validate_reference`. -/
def validate_reference (now : Clock) (reference : String) : Except String String :=
  if reference = "" then .ok (autoRef now)
  else
    let r := pyUpper (pyStrip reference)
    if refRegexOk r then
      if 50 < r.length then .error (refErrLong r.length)
      else if r.length < 3 then .error (refErrShort r.length)
      else .ok r
    else .error (refErrFormat r)

/-- The spec's pattern `^AMDEC-\d\x7b8\x7d-\d\x7b6\x7d$` for auto-generated
references. -/
def matchesAutoRef (s : String) : Bool :=
  match s.toList with
  | 'A' :: 'M' :: 'D' :: 'E' :: 'C' :: '-' :: rest =>
    (rest.take 8).all Char.isDigit &&
    (match rest.drop 8 with
     | '-' :: t => t.all Char.isDigit && t.length = 6 && rest.length = 15
     | _ => false)
  | _ => false

theorem digitChar_isDigit (n : Nat) (h : n < 10) : (Nat.digitChar n).isDigit = true := by
  interval_cases n <;> decide

/-! ### Strict score validation (`validators.validate_score` and
`validators.validate_criticality_scores`) -/

/-- Outcome of a call that can raise a (catchable) Django
`ValidationError` carrying a list of messages, or an uncaught Python
exception. -/
inductive SErr where
  | validation (msgs : List String)
  | uncaught (e : PyErr)
deriving DecidableEq

def scoreNotNumMsg (fieldName valueRepr : String) : String :=
  "❌ " ++ fieldName ++ ": La valeur '" ++ valueRepr ++
    "' n'est pas un nombre valide. Utilisez un nombre entier entre 1 et 10."

def scoreRangeMsg (fieldName : String) (score : Int) : String :=
  "❌ " ++ fieldName ++ ": La valeur " ++ toString score ++
    " est hors limites. Les scores doivent être entre 1 (minimum) et 10 (maximum)."

/-- Number of binary digits of `n` (fuel-driven; the fuel `n + 1` always
exceeds the recursion depth). -/
def bitLenF : Nat → Nat → Nat
  | 0, _ => 0
  | fuel + 1, n => if n = 0 then 0 else bitLenF fuel (n / 2) + 1

def bitLen (n : Nat) : Nat := bitLenF (n + 1) n

/-- Python `float(n)` on an int: round to 53 significant bits
(half-to-even); raises `OverflowError` when the rounded value reaches
`2^1024`.  `int(...)` of the integral result gives the integer back. -/
def pyFloatOfInt (n : Int) : Except PyErr Int :=
  let a := n.natAbs
  let r :=
    if a < 2 ^ 53 then a
    else
      let e := bitLen a - 53
      let q := a / 2 ^ e
      let rem := a % 2 ^ e
      let half := 2 ^ (e - 1)
      let q2 := if half < rem ∨ (rem = half ∧ q % 2 = 1) then q + 1 else q
      q2 * 2 ^ e
  if 2 ^ 1024 ≤ r then .error .overflowError
  else .ok (if n < 0 then -(r : Int) else (r : Int))

/-- `validators.validate_score`: strict validation; a string argument is
stripped with comma changed to dot before `int(float(...))`;
`ValueError`/`TypeError` become an `InvalidScore` validation error, other
exceptions (`OverflowError`, from an infinite float string or an int too
large for a double) propagate. -/
def validate_score (value : Cell) (fieldName : String) : Except SErr Int :=
  let conv : Except SErr Int :=
    match value with
    | .s v =>
      let cleaned := pyReplace (pyStrip v) "," "."
      match pyFloatOfString cleaned with
      | none => .error (.validation [scoreNotNumMsg fieldName cleaned])
      | some f =>
        match f.trunc with
        | .ok n => .ok n
        | .error .valueError => .error (.validation [scoreNotNumMsg fieldName cleaned])
        | .error e => .error (.uncaught e)
    | .i n =>
      match pyFloatOfInt n with
      | .ok m => .ok m
      | .error e => .error (.uncaught e)
    | .empty => .error (.validation [scoreNotNumMsg fieldName "None"])
  match conv with
  | .error e => .error e
  | .ok score =>
    if 1 ≤ score ∧ score ≤ 10 then .ok score
    else .error (.validation [scoreRangeMsg fieldName score])

/-- The messages a `validate_score` call contributes to the aggregated
error list of `validate_criticality_scores` (empty when it succeeded). -/
def errOf : Except SErr Int → List String
  | .error (.validation ms) => ms
  | _ => []

/-- Result of `validators.validate_criticality_scores`; `loggedHigh`
records whether the criticality-above-500 warning was logged. -/
structure CritOut where
  g : Int
  o : Int
  d : Int
  loggedHigh : Bool
deriving DecidableEq

/-- `validators.validate_criticality_scores`: validates all three scores,
collecting `ValidationError`s, and raises them aggregated; an uncaught
exception from a field propagates at once. -/
def validate_criticality_scores (gv ov dv : Cell) : Except SErr CritOut :=
  match validate_score gv "Gravité (G)" with
  | .error (.uncaught e) => .error (.uncaught e)
  | rg =>
    match validate_score ov "Occurrence (O)" with
    | .error (.uncaught e) => .error (.uncaught e)
    | ro =>
      match validate_score dv "Détection (D)" with
      | .error (.uncaught e) => .error (.uncaught e)
      | rd =>
        let errs := errOf rg ++ errOf ro ++ errOf rd
        if errs = [] then
          match rg, ro, rd with
          | .ok g, .ok o, .ok d => .ok ⟨g, o, d, decide (500 < g * o * d)⟩
          | _, _, _ => .error (.validation [])
        else .error (.validation errs)

/-- C8: `validate_reference` on empty input auto-generates a reference
matching `AMDEC-` + 8 digits + `-` + 6 digits; on non-empty input it trims
and uppercases, returns the result when it matches the class with length
in [3,50] ("REF-001" passes unchanged), and fails otherwise ("ab" fails). -/
theorem c8_validate_reference (now : Clock)
    (hy1 : 1000 ≤ now.year) (hy2 : now.year ≤ 9999)
    (hmo : now.month < 100) (hd : now.day < 100)
    (hh : now.hour < 100) (hmi : now.minute < 100) (hs : now.second < 100) :
    (validate_reference now "" = .ok (autoRef now) ∧
      matchesAutoRef (autoRef now) = true) ∧
    (∀ r : String, r ≠ "" →
      ((refRegexOk (pyUpper (pyStrip r)) = true ∧ 3 ≤ (pyUpper (pyStrip r)).length ∧
          (pyUpper (pyStrip r)).length ≤ 50) →
        validate_reference now r = .ok (pyUpper (pyStrip r))) ∧
      (¬(refRegexOk (pyUpper (pyStrip r)) = true ∧ 3 ≤ (pyUpper (pyStrip r)).length ∧
          (pyUpper (pyStrip r)).length ≤ 50) →
        ∃ msg, validate_reference now r = .error msg)) ∧
    validate_reference now "REF-001" = .ok "REF-001" ∧
    (∃ msg, validate_reference now "ab" = .error msg) := by
  have hmk : ∀ l : List Char, (String.mk l).toList = l := fun _ => rfl
  refine ⟨⟨rfl, ?_⟩, ?_, ?_, ?_⟩
  · unfold matchesAutoRef autoRef
    rw [hmk]
    unfold pad4 pad2
    rw [if_pos (show now.year < 10000 by omega), if_pos hmo, if_pos hd,
        if_pos hh, if_pos hmi, if_pos hs]
    simp only [List.cons_append, List.nil_append, List.take, List.drop,
      List.all_cons, List.all_nil, Bool.and_eq_true, List.length_cons,
      List.length_nil, decide_eq_true_eq]
    repeat' apply And.intro
    all_goals first
      | (exact digitChar_isDigit _ (by omega))
      | rfl
      | trivial
  · intro r hr
    constructor
    · rintro ⟨h1, h2, h3⟩
      unfold validate_reference
      rw [if_neg hr]
      simp only [h1, if_true]
      rw [if_neg (by omega), if_neg (by omega)]
    · intro hno
      unfold validate_reference
      rw [if_neg hr]
      by_cases h1 : refRegexOk (pyUpper (pyStrip r)) = true
      · simp only [h1, if_true]
        by_cases h2 : 50 < (pyUpper (pyStrip r)).length
        · exact ⟨_, by rw [if_pos h2]⟩
        · have h3 : (pyUpper (pyStrip r)).length < 3 := by
            by_contra hc
            exact hno ⟨h1, by omega, by omega⟩
          exact ⟨_, by rw [if_neg h2, if_pos h3]⟩
      · have hb : refRegexOk (pyUpper (pyStrip r)) = false := by
          cases hq : refRegexOk (pyUpper (pyStrip r))
          · rfl
          · exact absurd hq h1
        simp only [hb, Bool.false_eq_true, if_false]
        exact ⟨_, rfl⟩
  · unfold validate_reference
    rw [if_neg (by decide)]
    decide
  · refine ⟨refErrShort 2, ?_⟩
    unfold validate_reference
    rw [if_neg (by decide)]
    decide

/-- Witness for C8 at the clock 2025-10-12 08:30:45. -/
theorem c8_validate_reference_witness :
    validate_reference ⟨2025, 10, 12, 8, 30, 45⟩ "" =
      .ok (autoRef ⟨2025, 10, 12, 8, 30, 45⟩) ∧
    matchesAutoRef (autoRef ⟨2025, 10, 12, 8, 30, 45⟩) = true :=
  (c8_validate_reference ⟨2025, 10, 12, 8, 30, 45⟩ (by decide) (by decide) (by decide)
    (by decide) (by decide) (by decide) (by decide)).1

/-- C9 counterexample: with gravity `"inf"`, `int(float("inf"))` raises an
`OverflowError` that `validate_criticality_scores` does not catch, so the
call short-circuits on the first field even though occurrence `"abc"` is
also invalid (its failure is never collected); an integer gravity cell too
large to convert to a double (`10^400`) short-circuits the same way. -/
theorem c9_counterexample :
    validate_criticality_scores (.s "inf") (.s "abc") (.i 5) =
      .error (.uncaught .overflowError) ∧
    errOf (validate_score (.s "abc") "Occurrence (O)") ≠ [] ∧
    validate_criticality_scores (.i (10 ^ 400)) (.s "abc") (.i 5) =
      .error (.uncaught .overflowError) := by
  refine ⟨by rfl, by decide, by decide⟩

/-- C9 amended: provided no field raises an uncaught exception (only
infinite-float inputs do), `validate_criticality_scores` validates all
three scores, aggregates every validation failure into one error, and when
all three are valid returns them, only logging (not failing) when the
product exceeds 500. -/
theorem c9_amended (gv ov dv : Cell)
    (hg : ∀ e, validate_score gv "Gravité (G)" ≠ .error (.uncaught e))
    (ho : ∀ e, validate_score ov "Occurrence (O)" ≠ .error (.uncaught e))
    (hd : ∀ e, validate_score dv "Détection (D)" ≠ .error (.uncaught e)) :
    (errOf (validate_score gv "Gravité (G)") ++ errOf (validate_score ov "Occurrence (O)") ++
        errOf (validate_score dv "Détection (D)") ≠ [] →
      validate_criticality_scores gv ov dv =
        .error (.validation (errOf (validate_score gv "Gravité (G)") ++
          errOf (validate_score ov "Occurrence (O)") ++
          errOf (validate_score dv "Détection (D)")))) ∧
    (∀ g o d : Int, validate_score gv "Gravité (G)" = .ok g →
      validate_score ov "Occurrence (O)" = .ok o →
      validate_score dv "Détection (D)" = .ok d →
      validate_criticality_scores gv ov dv = .ok ⟨g, o, d, decide (500 < g * o * d)⟩) := by
  unfold validate_criticality_scores
  cases heg : validate_score gv "Gravité (G)" with
  | error eg =>
    cases eg with
    | uncaught e => exact absurd heg (hg e)
    | validation ms =>
      cases heo : validate_score ov "Occurrence (O)" with
      | error eo =>
        cases eo with
        | uncaught e2 => exact absurd heo (ho e2)
        | validation ms2 =>
          cases hed : validate_score dv "Détection (D)" with
          | error ed =>
            cases ed with
            | uncaught e3 => exact absurd hed (hd e3)
            | validation ms3 => exact ⟨fun _ => by simp [errOf], fun g o d hgo => by simp at hgo⟩
          | ok d => exact ⟨fun _ => by simp [errOf], fun g o d hgo => by simp at hgo⟩
      | ok o =>
        cases hed : validate_score dv "Détection (D)" with
        | error ed =>
          cases ed with
          | uncaught e3 => exact absurd hed (hd e3)
          | validation ms3 => exact ⟨fun _ => by simp [errOf], fun g o d hgo => by simp at hgo⟩
        | ok d => exact ⟨fun _ => by simp [errOf], fun g o d hgo => by simp at hgo⟩
  | ok g =>
    cases heo : validate_score ov "Occurrence (O)" with
    | error eo =>
      cases eo with
      | uncaught e2 => exact absurd heo (ho e2)
      | validation ms2 =>
        cases hed : validate_score dv "Détection (D)" with
        | error ed =>
          cases ed with
          | uncaught e3 => exact absurd hed (hd e3)
          | validation ms3 =>
            exact ⟨fun _ => by simp [errOf], fun g2 o2 d2 hgo hoo => by simp at hoo⟩
        | ok d => exact ⟨fun _ => by simp [errOf], fun g2 o2 d2 hgo hoo => by simp at hoo⟩
    | ok o =>
      cases hed : validate_score dv "Détection (D)" with
      | error ed =>
        cases ed with
        | uncaught e3 => exact absurd hed (hd e3)
        | validation ms3 =>
          exact ⟨fun _ => by simp [errOf], fun g2 o2 d2 hgo hoo hdo => by simp at hdo⟩
      | ok d =>
        refine ⟨fun hne => ?_, ?_⟩
        · simp [errOf] at hne
        · intro g2 o2 d2 hgo hoo hdo
          cases hgo
          cases hoo
          cases hdo
          simp [errOf]

/-- Witness for C9: the aggregated error collects both the gravity and the
detection failures, and a valid high-criticality triple succeeds. -/
theorem c9_amended_witness :
    (errOf (validate_score (.s "abc") "Gravité (G)") ++
        errOf (validate_score (.i 3) "Occurrence (O)") ++
        errOf (validate_score (.i 200) "Détection (D)") ≠ [] →
      validate_criticality_scores (.s "abc") (.i 3) (.i 200) =
        .error (.validation (errOf (validate_score (.s "abc") "Gravité (G)") ++
          errOf (validate_score (.i 3) "Occurrence (O)") ++
          errOf (validate_score (.i 200) "Détection (D)")))) ∧
    validate_criticality_scores (.i 9) (.i 9) (.i 9) =
      .ok ⟨9, 9, 9, decide (500 < (9 : Int) * 9 * 9)⟩ := by
  constructor
  · exact (c9_amended (.s "abc") (.i 3) (.i 200)
      (by intro e h; cases e <;> exact absurd h (by decide))
      (by intro e h; cases e <;> exact absurd h (by decide))
      (by intro e h; cases e <;> exact absurd h (by decide))).1
  · exact (c9_amended (.i 9) (.i 9) (.i 9)
      (by intro e h; cases e <;> exact absurd h (by decide))
      (by intro e h; cases e <;> exact absurd h (by decide))
      (by intro e h; cases e <;> exact absurd h (by decide))).2 9 9 9
      (by decide) (by decide) (by decide)

/-- Definitional description of `_parse_score` in terms of
`int(float(str(value)))`. -/
theorem parseScoreE_spec (value : Cell) (field : String) (row : Nat) :
    parseScoreE value field row =
      match intFloatStr value with
      | .error .overflowError => .error .overflowError
      | .error _ => .ok (5, [], [scoreErrMsg row field value])
      | .ok score =>
        if 1 ≤ score ∧ score ≤ 10 then .ok (score, [], [])
        else .ok (min 10 (max 1 score), [scoreWarnMsg row field score], []) := rfl

/-- C3 counterexample: on the cell value `"inf"`, `float(str(value))`
yields an infinity and `int(...)` raises an `OverflowError` that the
`except (ValueError, TypeError)` clause of `_parse_score` does not catch,
so the parser raises, contradicting "the parser never raises". -/
theorem c3_counterexample :
    parseScoreE (.s "inf") "gravity" 5 = .error .overflowError := by decide

/-- C3 amended: `_parse_score` returns a valid integer in [1,10]
unchanged; clamps a finite numeric value outside [1,10] to the nearest
bound with exactly one warning; substitutes the default 5 with exactly one
hard error when the value is non-numeric (`ValueError`/`TypeError`); and
raises (an `OverflowError`) exactly when `int(float(str(value)))`
overflows, i.e. when the value's string form converts to an infinite
float. -/
theorem c3_amended (value : Cell) (field : String) (row : Nat) :
    (∀ n : Int, 1 ≤ n → n ≤ 10 → parseScoreE (.i n) field row = .ok (n, [], [])) ∧
    (∀ score : Int, intFloatStr value = .ok score → ¬(1 ≤ score ∧ score ≤ 10) →
      parseScoreE value field row =
        .ok (min 10 (max 1 score), [scoreWarnMsg row field score], [])) ∧
    ((intFloatStr value = .error .valueError ∨ intFloatStr value = .error .typeError) →
      parseScoreE value field row = .ok (5, [], [scoreErrMsg row field value])) ∧
    (parseScoreE value field row = .error .overflowError ↔
      intFloatStr value = .error .overflowError) := by
  refine ⟨?_, ?_, ?_, ?_⟩
  · intro n h1 h2
    have hconv : intFloatStr (Cell.i n) = .ok n := by
      interval_cases n <;> decide
    rw [parseScoreE_spec, hconv]
    exact if_pos ⟨h1, h2⟩
  · intro score hconv hout
    rw [parseScoreE_spec, hconv]
    exact if_neg hout
  · intro h
    rcases h with h | h <;> rw [parseScoreE_spec, h]
  · rw [parseScoreE_spec]
    cases hc : intFloatStr value with
    | ok score =>
      refine iff_of_false ?_ (by simp)
      intro h
      have h2 : (if 1 ≤ score ∧ score ≤ 10 then
            (Except.ok (score, [], []) : Except PyErr (Int × List String × List String))
          else .ok (min 10 (max 1 score), [scoreWarnMsg row field score], [])) =
            .error .overflowError := h
      split_ifs at h2
    | error e =>
      cases e
      · exact iff_of_false (by intro h; simp at h) (by intro h; simp at h)
      · exact iff_of_false (by intro h; simp at h) (by intro h; simp at h)
      · exact iff_of_true rfl rfl
      · exact iff_of_false (by intro h; simp at h) (by intro h; simp at h)

/-- Witness for C3: identity on 1..10 at n = 7, clamping at 15 and 0, and
the default-5 path at "abc". -/
theorem c3_amended_witness :
    parseScoreE (.i 7) "gravity" 2 = .ok (7, [], []) ∧
    parseScoreE (.i 15) "gravity" 3 =
      .ok (min 10 (max 1 15), [scoreWarnMsg 3 "gravity" 15], []) ∧
    parseScoreE (.i 0) "gravity" 4 =
      .ok (min 10 (max 1 0), [scoreWarnMsg 4 "gravity" 0], []) ∧
    parseScoreE (.s "abc") "gravity" 5 = .ok (5, [], [scoreErrMsg 5 "gravity" (.s "abc")]) := by
  refine ⟨?_, ?_, ?_, ?_⟩
  · exact (c3_amended (.i 7) "gravity" 2).1 7 (by decide) (by decide)
  · exact (c3_amended (.i 15) "gravity" 3).2.1 15 (by decide) (by decide)
  · exact (c3_amended (.i 0) "gravity" 4).2.1 0 (by decide) (by decide)
  · exact (c3_amended (.s "abc") "gravity" 5).2.2.1 (Or.inl (by decide))

/-! ### Date parsing (`ExcelImporter._parse_date`) -/

def isLeap (y : Nat) : Bool := (y % 4 = 0 && y % 100 ≠ 0) || y % 400 = 0

def daysInMonth (y m : Nat) : Nat :=
  if m = 2 then (if isLeap y then 29 else 28)
  else if m = 4 ∨ m = 6 ∨ m = 9 ∨ m = 11 then 30
  else 31

def allDigits (l : List Char) : Bool := l.all Char.isDigit

/-- `strptime` `%d` field: one or two digits with value in 1..31. -/
def tokDay (t : List Char) : Option Nat :=
  if allDigits t ∧ (t.length = 1 ∨ t.length = 2) then
    let v := natOfDigits t
    if 1 ≤ v ∧ v ≤ 31 then some v else none
  else none

/-- `strptime` `%m` field: one or two digits with value in 1..12. -/
def tokMonth (t : List Char) : Option Nat :=
  if allDigits t ∧ (t.length = 1 ∨ t.length = 2) then
    let v := natOfDigits t
    if 1 ≤ v ∧ v ≤ 12 then some v else none
  else none

/-- `strptime` `%Y` field: exactly four digits. -/
def tokYear (t : List Char) : Option Nat :=
  if allDigits t ∧ t.length = 4 then some (natOfDigits t) else none

/-- `datetime.date(y, m, d)` construction: fails (ValueError, caught by
the importer) when the day exceeds the month length or the year is 0. -/
def mkDateChecked (y m d : Nat) : Option PyDate :=
  if 1 ≤ y ∧ d ≤ daysInMonth y m then some ⟨y, m, d⟩ else none

/-- The shape of a date format string: year-month-day or day-month-year
with a single separator character. -/
inductive DFmt where
  | ymd (sep : Char)
  | dmy (sep : Char)
deriving DecidableEq

/-- `datetime.strptime(s, fmt).date()` for the three-field formats used by
the importer (full-string match; each numeric field per the strptime
regular expressions). -/
def strptimeDate (fmt : DFmt) (s : String) : Option PyDate :=
  match fmt with
  | .ymd sep =>
    match splitOnL [sep] s.toList with
    | [a, b, c] => do
      let y ← tokYear a
      let m ← tokMonth b
      let d ← tokDay c
      mkDateChecked y m d
    | _ => none
  | .dmy sep =>
    match splitOnL [sep] s.toList with
    | [a, b, c] => do
      let d ← tokDay a
      let m ← tokMonth b
      let y ← tokYear c
      mkDateChecked y m d
    | _ => none

/-- The importer's format list
`['%Y-%m-%d', '%d/%m/%Y', '%d-%m-%Y', '%Y/%m/%d', '%d.%m.%Y']` in order. -/
def importerFormats : List DFmt := [.ymd '-', .dmy '/', .dmy '-', .ymd '/', .dmy '.']

/-- Try each format in order; first success wins. -/
def tryDateFormats : List DFmt → String → Option PyDate
  | [], _ => none
  | f :: rest, s =>
    match strptimeDate f s with
    | some d => some d
    | none => tryDateFormats rest s

/-- The kinds of value `_parse_date` receives: a date, a datetime, a
string, or anything else (carried with its `str()` form). -/
inductive DateInput where
  | d (v : PyDate)
  | dt (v : PyDate)
  | str (v : String)
  | other (reprStr : String)
deriving DecidableEq

def dateWarnMsg (v : String) : String :=
  "Date invalide '" ++ v ++ "', utilisation de la date du jour"

/-- `ExcelImporter._parse_date`: date/datetime pass through; strings are
tried against the five formats in order; anything unparsed falls back to
today with a warning.  Total — the only exception in the body
(`ValueError` from `strptime`) is caught. -/
def parseDateI (value : DateInput) (today : PyDate) : PyDate × List String :=
  match value with
  | .d v => (v, [])
  | .dt v => (v, [])
  | .str sv =>
    match tryDateFormats importerFormats (pyStrip sv) with
    | some dd => (dd, [])
    | none => (today, [dateWarnMsg sv])
  | .other r => (today, [dateWarnMsg r])

theorem tryFormats_of_first (s : String) : ∀ (fs : List DFmt) (i : Nat) (f : DFmt) (d : PyDate),
    fs.get? i = some f →
    (∀ g ∈ fs.take i, strptimeDate g s = none) →
    strptimeDate f s = some d →
    tryDateFormats fs s = some d := by
  intro fs
  induction fs with
  | nil => intro i f d h _ _; simp at h
  | cons g rest ih =>
    intro i f d hget hnone hok
    cases i with
    | zero =>
      simp at hget
      subst hget
      unfold tryDateFormats
      rw [hok]
    | succ j =>
      have hg : strptimeDate g s = none := hnone g (by simp [List.take])
      unfold tryDateFormats
      rw [hg]
      refine ih j f d (by simpa using hget) ?_ hok
      intro x hx
      exact hnone x (by simp [List.take, hx])

theorem tryFormats_of_none (s : String) : ∀ fs : List DFmt,
    (∀ f ∈ fs, strptimeDate f s = none) → tryDateFormats fs s = none := by
  intro fs
  induction fs with
  | nil => intro _; rfl
  | cons g rest ih =>
    intro h
    unfold tryDateFormats
    rw [h g (by simp)]
    exact ih (fun x hx => h x (by simp [hx]))

/-- C5: `_parse_date` tries `%Y-%m-%d`, `%d/%m/%Y`, `%d-%m-%Y`,
`%Y/%m/%d`, `%d.%m.%Y` in that order returning the first successful
parse; when no format matches (including non-string, non-date inputs) it
appends one warning and returns today's date; it is total (never
raises). -/
theorem c5_parse_date (today : PyDate) :
    (∀ (s : String) (i : Nat) (f : DFmt) (d : PyDate),
      importerFormats.get? i = some f →
      (∀ g ∈ importerFormats.take i, strptimeDate g (pyStrip s) = none) →
      strptimeDate f (pyStrip s) = some d →
      parseDateI (.str s) today = (d, [])) ∧
    (∀ s : String, (∀ f ∈ importerFormats, strptimeDate f (pyStrip s) = none) →
      parseDateI (.str s) today = (today, [dateWarnMsg s])) ∧
    (∀ r : String, parseDateI (.other r) today = (today, [dateWarnMsg r])) := by
  refine ⟨?_, ?_, fun r => rfl⟩
  · intro s i f d hget hnone hok
    have hred : parseDateI (.str s) today =
        match tryDateFormats importerFormats (pyStrip s) with
        | some dd => (dd, [])
        | none => (today, [dateWarnMsg s]) := rfl
    rw [hred, tryFormats_of_first (pyStrip s) importerFormats i f d hget hnone hok]
  · intro s hall
    have hred : parseDateI (.str s) today =
        match tryDateFormats importerFormats (pyStrip s) with
        | some dd => (dd, [])
        | none => (today, [dateWarnMsg s]) := rfl
    rw [hred, tryFormats_of_none (pyStrip s) importerFormats hall]

/-- Witness for C5: `"31/12/2025"`, `"2025-12-31"` and `"31.12.2025"` all
parse (through different formats, each the first that matches) to the same
calendar date, and `"not-a-date"` falls back to today with one warning. -/
theorem c5_parse_date_witness :
    parseDateI (.str "31/12/2025") ⟨2024, 1, 1⟩ = (⟨2025, 12, 31⟩, []) ∧
    parseDateI (.str "2025-12-31") ⟨2024, 1, 1⟩ = (⟨2025, 12, 31⟩, []) ∧
    parseDateI (.str "31.12.2025") ⟨2024, 1, 1⟩ = (⟨2025, 12, 31⟩, []) ∧
    parseDateI (.str "not-a-date") ⟨2024, 1, 1⟩ =
      (⟨2024, 1, 1⟩, [dateWarnMsg "not-a-date"]) := by
  refine ⟨?_, ?_, ?_, ?_⟩
  · exact (c5_parse_date ⟨2024, 1, 1⟩).1 "31/12/2025" 1 (.dmy '/') ⟨2025, 12, 31⟩
      (by decide) (by decide) (by decide)
  · exact (c5_parse_date ⟨2024, 1, 1⟩).1 "2025-12-31" 0 (.ymd '-') ⟨2025, 12, 31⟩
      (by decide) (by decide) (by decide)
  · exact (c5_parse_date ⟨2024, 1, 1⟩).1 "31.12.2025" 4 (.dmy '.') ⟨2025, 12, 31⟩
      (by decide) (by decide) (by decide)
  · exact (c5_parse_date ⟨2024, 1, 1⟩).2.1 "not-a-date" (by decide)

/-! ### Metadata extraction (`ExcelImporter._extract_metadata`) -/

/-- The metadata fields targeted by `METADATA_KEYWORDS`. -/
inductive MField where
  | system_name
  | analysis_date
  | team_members
  | objective
  | client
  | reference
deriving DecidableEq

/-- `ExcelImporter.METADATA_KEYWORDS` in dict insertion order. -/
def METADATA_KEYWORDS : List (String × MField) :=
  [("système", .system_name), ("date", .analysis_date), ("équipe", .team_members),
   ("objectif", .objective), ("client", .client), ("référence", .reference)]

/-- Project metadata under construction. -/
structure Metadata where
  system_name : String
  analysis_date : PyDate
  team_members : String
  objective : String
  client : String
  reference : String
deriving DecidableEq

/-- The initial metadata dict (`reference` uses `%Y%m%d-%H%M`, without
seconds). -/
def initMetadata (today : PyDate) (now : Clock) : Metadata :=
  ⟨"", today, "", "", "",
    String.mk ('A' :: 'M' :: 'D' :: 'E' :: 'C' :: '-' ::
      (pad4 now.year ++ pad2 now.month ++ pad2 now.day ++ ['-'] ++
       pad2 now.hour ++ pad2 now.minute))⟩

/-- The first keyword of `METADATA_KEYWORDS` contained in the lowered,
stripped first cell (the inner `for ... break` of the metadata scan). -/
def firstKeywordMatch (firstCell : String) : Option MField :=
  (METADATA_KEYWORDS.find? (fun p => containsSub firstCell p.1)).map (fun p => p.2)

/-- What a metadata-scan row assigns: `some (field, value)` when the first
cell is truthy, contains a keyword, and a truthy second cell provides the
value (stripped); `none` when the row is skipped or the matching keyword
finds no value (the inner loop still breaks in that case). -/
def rowFieldUpdate (row : List Cell) : Option (MField × String) :=
  match row with
  | [] => none
  | c0 :: rest =>
    if c0.truthy then
      match firstKeywordMatch (pyStrip (pyLower c0.pyStr)) with
      | none => none
      | some f =>
        match rest with
        | c1 :: _ => if c1.truthy then some (f, pyStrip c1.pyStr) else none
        | [] => none
    else none

/-- Store a raw string value into a metadata field (`analysis_date` runs
through `_parse_date`, appending its warnings). -/
def applyFieldValue (m : Metadata) (f : MField) (v : String) (today : PyDate)
    (warnings : List String) : Metadata × List String :=
  match f with
  | .system_name => ({ m with system_name := v }, warnings)
  | .analysis_date =>
    ({ m with analysis_date := (parseDateI (.str v) today).1 },
      warnings ++ (parseDateI (.str v) today).2)
  | .team_members => ({ m with team_members := v }, warnings)
  | .objective => ({ m with objective := v }, warnings)
  | .client => ({ m with client := v }, warnings)
  | .reference => ({ m with reference := v }, warnings)

/-- One row of the first metadata loop. -/
def metaStep (today : PyDate) (st : Metadata × List String) (row : List Cell) :
    Metadata × List String :=
  match rowFieldUpdate row with
  | none => st
  | some (f, v) => applyFieldValue st.1 f v today st.2

/-- The keyword scan over rows 1–15. -/
def metaLoop1 (today : PyDate) (st : Metadata × List String)
    (rows : List (List Cell)) : Metadata × List String :=
  rows.foldl (metaStep today) st

/-- First line of a header cell, carriage returns removed, stripped. -/
def headerNameOf (cv : String) : String :=
  match splitOnL ['\n'] cv.toList with
  | [] => ""
  | l0 :: _ => pyStrip (pyReplace (String.mk l0) "\r" "")

/-- The second metadata loop over rows 1–5: the first row whose truthy
first cell contains `STEP` or `AMDEC` supplies `system_name` when it is
still empty, and the loop breaks there either way. -/
def metaLoop2 : Metadata → List (List Cell) → Metadata
  | m, [] => m
  | m, row :: rest =>
    match row with
    | c0 :: _ =>
      if c0.truthy then
        let cv := c0.pyStr
        if containsSub cv "STEP" || containsSub cv "AMDEC" then
          let name := headerNameOf cv
          if m.system_name = "" ∧ name ≠ "" then { m with system_name := name }
          else m
        else metaLoop2 m rest
      else metaLoop2 m rest
    | [] => metaLoop2 m rest

/-- `ExcelImporter._extract_metadata` (returns the metadata and the
warnings appended by date parsing). -/
def extractMetadata (today : PyDate) (now : Clock) (sheet : List (List Cell)) :
    Metadata × List String :=
  (metaLoop2 (metaLoop1 today (initMetadata today now, []) (sheet.take 15)).1
      (sheet.take 5),
    (metaLoop1 today (initMetadata today now, []) (sheet.take 15)).2)

/-- Read a metadata field uniformly. -/
def fieldGet (m : Metadata) : MField → String ⊕ PyDate
  | .system_name => .inl m.system_name
  | .analysis_date => .inr m.analysis_date
  | .team_members => .inl m.team_members
  | .objective => .inl m.objective
  | .client => .inl m.client
  | .reference => .inl m.reference

/-- The value a raw assignment leaves in a field. -/
def fieldResultOf (f : MField) (v : String) (today : PyDate) : String ⊕ PyDate :=
  match f with
  | .analysis_date => .inr (parseDateI (.str v) today).1
  | _ => .inl v

theorem fieldGet_applyFieldValue (m : Metadata) (f : MField) (v : String)
    (today : PyDate) (w : List String) :
    fieldGet (applyFieldValue m f v today w).1 f = fieldResultOf f v today := by
  cases f <;> rfl

theorem fieldGet_applyFieldValue_other (m : Metadata) (f g : MField) (v : String)
    (today : PyDate) (w : List String) (hne : g ≠ f) :
    fieldGet (applyFieldValue m g v today w).1 f = fieldGet m f := by
  cases g <;> cases f <;> first | rfl | exact absurd rfl hne

theorem fieldGet_metaLoop1_of_none (today : PyDate) (f : MField) :
    ∀ (rows : List (List Cell)) (st : Metadata × List String),
    (∀ r2 ∈ rows, ∀ v2, rowFieldUpdate r2 ≠ some (f, v2)) →
    fieldGet (metaLoop1 today st rows).1 f = fieldGet st.1 f := by
  intro rows
  induction rows with
  | nil => intro st _; rfl
  | cons r rest ih =>
    intro st hnone
    show fieldGet (metaLoop1 today (metaStep today st r) rest).1 f = _
    rw [ih (metaStep today st r) (fun x hx => hnone x (by simp [hx]))]
    unfold metaStep
    cases hru : rowFieldUpdate r with
    | none => rfl
    | some p =>
      rcases p with ⟨g, v2⟩
      have hgf : g ≠ f := by
        intro h
        subst h
        exact hnone r (by simp) v2 hru
      exact fieldGet_applyFieldValue_other st.1 f g v2 today st.2 hgf

theorem metaLoop2_of_named (m : Metadata) (hm : m.system_name ≠ "") :
    ∀ rows : List (List Cell), metaLoop2 m rows = m := by
  intro rows
  induction rows with
  | nil => rfl
  | cons row rest ih =>
    unfold metaLoop2
    cases row with
    | nil => exact ih
    | cons c0 rest2 =>
      by_cases ht : c0.truthy
      · simp only [ht, if_true]
        by_cases hk : (containsSub c0.pyStr "STEP" || containsSub c0.pyStr "AMDEC") = true
        · simp only [hk, if_true]
          rw [if_neg (by intro hc; exact hm hc.1)]
        · simp only [Bool.not_eq_true] at hk
          simp only [hk, Bool.false_eq_true, if_false]
          exact ih
      · simp only [Bool.not_eq_true] at ht
        simp only [ht, Bool.false_eq_true, if_false]
        exact ih

theorem fieldGet_metaLoop2_other (f : MField) (hf : f ≠ .system_name) :
    ∀ (m : Metadata) (rows : List (List Cell)),
    fieldGet (metaLoop2 m rows) f = fieldGet m f := by
  intro m rows
  induction rows generalizing m with
  | nil => rfl
  | cons row rest ih =>
    unfold metaLoop2
    cases row with
    | nil => exact ih m
    | cons c0 rest2 =>
      by_cases ht : c0.truthy
      · simp only [ht, if_true]
        by_cases hk : (containsSub c0.pyStr "STEP" || containsSub c0.pyStr "AMDEC") = true
        · simp only [hk, if_true]
          by_cases hs : m.system_name = "" ∧ headerNameOf c0.pyStr ≠ ""
          · rw [if_pos hs]
            cases f <;> first | rfl | exact absurd rfl hf
          · rw [if_neg hs]
        · simp only [Bool.not_eq_true] at hk
          simp only [hk, Bool.false_eq_true, if_false]
          exact ih m
      · simp only [Bool.not_eq_true] at ht
        simp only [ht, Bool.false_eq_true, if_false]
        exact ih m

/-- C1 counterexample: with rows `("système", "A")` then `("système",
"B")`, the first matching row determines the value "A" per the claim, yet
extraction returns "B" — a later row containing the same keyword DOES
overwrite the already-set field. -/
theorem c1_counterexample :
    rowFieldUpdate [Cell.s "système", Cell.s "A"] = some (.system_name, "A") ∧
    (extractMetadata ⟨2024, 1, 1⟩ ⟨2025, 1, 1, 0, 0, 0⟩
      [[Cell.s "système", Cell.s "A"], [Cell.s "système", Cell.s "B"]]).1.system_name
      = "B" := by
  constructor
  · decide
  · decide

/-- C1 amended: for each field, the LAST row among rows 1–15 that assigns
it (first cell truthy and containing the field's keyword as its first
matching keyword, truthy second cell) determines the field's value — later
matches overwrite earlier ones; the rows-1–5 STEP/AMDEC header can only
fill `system_name` when the keyword scan left it empty. -/
theorem c1_amended (today : PyDate) (now : Clock) (pre post : List (List Cell))
    (r : List Cell) (f : MField) (v : String)
    (hlen : (pre ++ r :: post).length ≤ 15)
    (hr : rowFieldUpdate r = some (f, v))
    (hpost : ∀ r2 ∈ post, ∀ v2, rowFieldUpdate r2 ≠ some (f, v2))
    (hsys : f = .system_name → v ≠ "") :
    fieldGet (extractMetadata today now (pre ++ r :: post)).1 f =
      fieldResultOf f v today := by
  have htake : (pre ++ r :: post).take 15 = pre ++ r :: post :=
    List.take_of_length_le hlen
  have hloop1 : fieldGet (metaLoop1 today (initMetadata today now, [])
      (pre ++ r :: post)).1 f = fieldResultOf f v today := by
    unfold metaLoop1
    rw [List.foldl_append]
    have h1 : fieldGet (List.foldl (metaStep today)
        (metaStep today (List.foldl (metaStep today) (initMetadata today now, []) pre) r)
        post).1 f =
        fieldGet (metaStep today
          (List.foldl (metaStep today) (initMetadata today now, []) pre) r).1 f := by
      show fieldGet (metaLoop1 today _ post).1 f = _
      exact fieldGet_metaLoop1_of_none today f post _ hpost
    rw [show List.foldl (metaStep today) _ (r :: post) =
        List.foldl (metaStep today)
          (metaStep today (List.foldl (metaStep today) (initMetadata today now, []) pre) r)
          post from rfl]
    rw [h1]
    unfold metaStep
    rw [hr]
    exact fieldGet_applyFieldValue _ f v today _
  unfold extractMetadata
  rw [htake]
  by_cases hf : f = MField.system_name
  · subst hf
    have hv : v ≠ "" := hsys rfl
    have hname : (metaLoop1 today (initMetadata today now, [])
        (pre ++ r :: post)).1.system_name = v := by
      have := hloop1
      unfold fieldGet fieldResultOf at this
      simpa using this
    rw [metaLoop2_of_named _ (by rw [hname]; exact hv)]
    exact hloop1
  · rw [fieldGet_metaLoop2_other f hf]
    exact hloop1

/-- Witness for C1 amended: two "client" rows; the later one wins. -/
theorem c1_amended_witness :
    fieldGet (extractMetadata ⟨2024, 1, 1⟩ ⟨2025, 1, 1, 0, 0, 0⟩
      ([[Cell.s "client", Cell.s "Alpha"]] ++
        [Cell.s "client", Cell.s "Beta"] :: [])).1 MField.client =
      fieldResultOf MField.client "Beta" ⟨2024, 1, 1⟩ :=
  c1_amended ⟨2024, 1, 1⟩ ⟨2025, 1, 1, 0, 0, 0⟩ [[Cell.s "client", Cell.s "Alpha"]]
    [] [Cell.s "client", Cell.s "Beta"] MField.client "Beta"
    (by decide) (by decide) (by intro r2 hr2; simp at hr2) (by intro h; cases h)

/-! ### Failure-table extraction (`ExcelImporter._extract_failures`) -/

/-- The failure-record fields of `COLUMN_MAPPING`. -/
inductive FField where
  | component
  | failure_mode
  | potential_cause
  | effect
  | gravity
  | occurrence
  | detection
  | preventive_actions
deriving DecidableEq

/-- `ExcelImporter.COLUMN_MAPPING` in dict insertion order. -/
def COLUMN_MAPPING : List (String × FField) :=
  [("Composant", .component), ("Mode de Défaillance", .failure_mode),
   ("Cause Potentielle", .potential_cause), ("Effet", .effect),
   ("Gravité (G)", .gravity), ("Occurrence (O)", .occurrence),
   ("Détection (D)", .detection), ("Actions Préventives", .preventive_actions)]

/-- `' '.join(str(cell) for cell in row if cell)`. -/
def rowStr (row : List Cell) : String :=
  String.mk (joinWords ((row.filter Cell.truthy).map (fun c => c.pyStr.toList)))

/-- The header-row predicate: row text contains `Composant` and `Mode` or
`Défaillance`. -/
def isHeaderRow (row : List Cell) : Bool :=
  containsSub (rowStr row) "Composant" &&
    (containsSub (rowStr row) "Mode" || containsSub (rowStr row) "Défaillance")

/-- `column_indices[field] = col` on a Python dict kept as an
insertion-ordered association list: an existing key is updated in place,
a new key is appended. -/
def dictSet (m : List (FField × Nat)) (k : FField) (v : Nat) : List (FField × Nat) :=
  if m.any (fun p => p.1 = k) then m.map (fun p => if p.1 = k then (k, v) else p)
  else m ++ [(k, v)]

/-- First `COLUMN_MAPPING` label matching a header cell (exact or
case-insensitive substring). -/
def cellFieldMatch (cellStr : String) : Option FField :=
  (COLUMN_MAPPING.find? (fun p =>
    containsSub cellStr p.1 || containsSub (pyLower cellStr) (pyLower p.1))).map
    (fun p => p.2)

/-- Build the column-index map from the header row. -/
def buildColMapAux : Nat → List Cell → List (FField × Nat) → List (FField × Nat)
  | _, [], m => m
  | i, c :: rest, m =>
    buildColMapAux (i + 1) rest
      (if c.truthy then
        match cellFieldMatch (pyStrip c.pyStr) with
        | some f => dictSet m f i
        | none => m
      else m)

def buildColMap (row : List Cell) : List (FField × Nat) := buildColMapAux 0 row []

/-- Find the 1-based index of the first header row and its column map. -/
def findHeader : Nat → List (List Cell) → Option (Nat × List (FField × Nat))
  | _, [] => none
  | i, row :: rest =>
    if row = [] then findHeader (i + 1) rest
    else if isHeaderRow row then some (i, buildColMap row)
    else findHeader (i + 1) rest

/-- The failure dict built from one data row (fields absent when their
column is unmapped). -/
structure ParsedFailure where
  component : Option String
  failure_mode : Option String
  potential_cause : Option String
  effect : Option String
  gravity : Option Int
  occurrence : Option Int
  detection : Option Int
  preventive_actions : Option String
  order : Nat
deriving DecidableEq

def emptyPF (order : Nat) : ParsedFailure :=
  ⟨none, none, none, none, none, none, none, none, order⟩

/-- Python truthiness of `failure_data.get(key)`. -/
def optTruthy : Option String → Bool
  | some s => s ≠ ""
  | none => false

/-- Process one mapped column of a data row: scores go through
`_parse_score` (which may raise), other fields through `_clean_text`. -/
def applyCol (rowNum : Nat) (row : List Cell)
    (st : ParsedFailure × List String × List String) (p : FField × Nat) :
    Except PyErr (ParsedFailure × List String × List String) :=
  if h : p.2 < row.length then
    match p.1 with
    | .gravity => (parseScoreE (row.get ⟨p.2, h⟩) "gravity" rowNum).map
        (fun r => ({ st.1 with gravity := some r.1 }, st.2.1 ++ r.2.1, st.2.2 ++ r.2.2))
    | .occurrence => (parseScoreE (row.get ⟨p.2, h⟩) "occurrence" rowNum).map
        (fun r => ({ st.1 with occurrence := some r.1 }, st.2.1 ++ r.2.1, st.2.2 ++ r.2.2))
    | .detection => (parseScoreE (row.get ⟨p.2, h⟩) "detection" rowNum).map
        (fun r => ({ st.1 with detection := some r.1 }, st.2.1 ++ r.2.1, st.2.2 ++ r.2.2))
    | .component =>
      .ok ({ st.1 with
              component := some (if (row.get ⟨p.2, h⟩).truthy then cleanTextI (row.get ⟨p.2, h⟩) else "") },
        st.2.1, st.2.2)
    | .failure_mode =>
      .ok ({ st.1 with
              failure_mode := some (if (row.get ⟨p.2, h⟩).truthy then cleanTextI (row.get ⟨p.2, h⟩) else "") },
        st.2.1, st.2.2)
    | .potential_cause =>
      .ok ({ st.1 with
              potential_cause := some (if (row.get ⟨p.2, h⟩).truthy then cleanTextI (row.get ⟨p.2, h⟩) else "") },
        st.2.1, st.2.2)
    | .effect =>
      .ok ({ st.1 with
              effect := some (if (row.get ⟨p.2, h⟩).truthy then cleanTextI (row.get ⟨p.2, h⟩) else "") },
        st.2.1, st.2.2)
    | .preventive_actions =>
      .ok ({ st.1 with
              preventive_actions := some (if (row.get ⟨p.2, h⟩).truthy then cleanTextI (row.get ⟨p.2, h⟩) else "") },
        st.2.1, st.2.2)
  else .ok st

/-- The summary-block stop keywords. -/
def stopKeywords : List String := ["résumé", "total", "criticité élevée", "criticité modérée"]

/-- `str(row[0]) if row[0] else ''` lowered contains a stop keyword. -/
def isStopRow (row : List Cell) : Bool :=
  let firstCell := match row with
    | [] => ""
    | c :: _ => if c.truthy then c.pyStr else ""
  stopKeywords.any (fun k => containsSub (pyLower firstCell) k)

def incompleteMsg (rowNum : Nat) : String :=
  "Ligne " ++ toString rowNum ++ ": Données incomplètes ignorées"

/-- Accumulated extraction state: collected failures and the importer's
`warnings` and `errors` lists. -/
structure ExtractState where
  failures : List ParsedFailure
  warnings : List String
  errors : List String
deriving DecidableEq

/-- Scan the data rows after the header: skip all-empty rows, stop at the
first summary row, per row populate the mapped fields, then keep the row
only when component and failure_mode are truthy (else warn and drop). -/
def scanData (colmap : List (FField × Nat)) :
    Nat → List (List Cell) → ExtractState → Except PyErr ExtractState
  | _, [], st => .ok st
  | i, row :: rest, st =>
    if row = [] || !(row.any Cell.truthy) then scanData colmap (i + 1) rest st
    else if isStopRow row then .ok st
    else
      match List.foldlM (applyCol i row) (emptyPF st.failures.length, [], []) colmap with
      | .error e => .error e
      | .ok (pf, ws, es) =>
        if optTruthy pf.component && optTruthy pf.failure_mode then
          scanData colmap (i + 1) rest
            ⟨st.failures ++ [pf], st.warnings ++ ws, st.errors ++ es⟩
        else
          scanData colmap (i + 1) rest
            ⟨st.failures, st.warnings ++ ws ++ [incompleteMsg i], st.errors ++ es⟩

def noHeaderMsg : String := "Impossible de trouver les en-têtes de colonnes"

/-- `ExcelImporter._extract_failures`. -/
def extractFailures (sheet : List (List Cell)) : Except PyErr ExtractState :=
  match findHeader 1 sheet with
  | none => .ok ⟨[], [noHeaderMsg], []⟩
  | some (hidx, colmap) =>
    if colmap = [] then .ok ⟨[], [noHeaderMsg], []⟩
    else scanData colmap (hidx + 1) (sheet.drop hidx) ⟨[], [], []⟩

/-! ### `ExcelImporter.validate_data` -/

def noFailuresMsg : String := "Aucune défaillance trouvée dans le fichier"

def scoreFieldErrs (idx : Nat) (name : String) : Option Int → List String
  | none => ["Défaillance " ++ toString idx ++ ": " ++ name ++ " manquant"]
  | some n =>
    if 1 ≤ n ∧ n ≤ 10 then []
    else ["Défaillance " ++ toString idx ++ ": " ++ name ++ "=" ++ toString n ++
      " invalide (doit être 1-10)"]

def failureErrs (idx : Nat) (pf : ParsedFailure) : List String :=
  (if optTruthy pf.component then []
    else ["Défaillance " ++ toString idx ++ ": Composant manquant"]) ++
  (if optTruthy pf.failure_mode then []
    else ["Défaillance " ++ toString idx ++ ": Mode de défaillance manquant"]) ++
  scoreFieldErrs idx "gravity" pf.gravity ++
  scoreFieldErrs idx "occurrence" pf.occurrence ++
  scoreFieldErrs idx "detection" pf.detection

def allFailureErrs : Nat → List ParsedFailure → List String
  | _, [] => []
  | i, pf :: rest => failureErrs i pf ++ allFailureErrs (i + 1) rest

/-- `ExcelImporter.validate_data`: clears errors, checks the metadata's
system name, requires at least one failure, then validates each failure;
returns success iff no error was collected (with the collected errors). -/
def validateData (metadata : Metadata) (failures : List ParsedFailure) :
    Bool × List String :=
  let errs1 := if metadata.system_name = "" then ["Nom du système manquant"] else []
  if failures = [] then (false, errs1 ++ [noFailuresMsg])
  else
    let errs := errs1 ++ allFailureErrs 1 failures
    (errs = [], errs)

/-- Any score `_parse_score` returns is in [1,10]. -/
theorem parseScoreE_ok_range (v : Cell) (f : String) (r : Nat) (n : Int)
    (ws es : List String) (h : parseScoreE v f r = .ok (n, ws, es)) :
    1 ≤ n ∧ n ≤ 10 := by
  rw [parseScoreE_spec] at h
  cases hc : intFloatStr v with
  | ok score =>
    rw [hc] at h
    have h2 : (if 1 ≤ score ∧ score ≤ 10 then
          (Except.ok (score, [], []) : Except PyErr (Int × List String × List String))
        else .ok (min 10 (max 1 score), [scoreWarnMsg r f score], [])) =
          .ok (n, ws, es) := h
    split_ifs at h2 with hr
    · simp only [Except.ok.injEq, Prod.mk.injEq] at h2
      omega
    · simp only [Except.ok.injEq, Prod.mk.injEq] at h2
      rcases h2 with ⟨hn, _⟩
      subst hn
      constructor
      · exact le_min (by norm_num) (le_max_left 1 score)
      · exact min_le_left 10 (max 1 score)
  | error e =>
    rw [hc] at h
    cases e
    · have h2 : (Except.ok (5, [], [scoreErrMsg r f v]) :
          Except PyErr (Int × List String × List String)) = .ok (n, ws, es) := h
      simp only [Except.ok.injEq, Prod.mk.injEq] at h2
      omega
    · have h2 : (Except.ok (5, [], [scoreErrMsg r f v]) :
          Except PyErr (Int × List String × List String)) = .ok (n, ws, es) := h
      simp only [Except.ok.injEq, Prod.mk.injEq] at h2
      omega
    · exact absurd h (by simp)
    · have h2 : (Except.ok (5, [], [scoreErrMsg r f v]) :
          Except PyErr (Int × List String × List String)) = .ok (n, ws, es) := h
      simp only [Except.ok.injEq, Prod.mk.injEq] at h2
      omega

/-- Score fields of a parsed failure are in range whenever present. -/
def pfScoresOk (pf : ParsedFailure) : Prop :=
  (∀ n, pf.gravity = some n → 1 ≤ n ∧ n ≤ 10) ∧
  (∀ n, pf.occurrence = some n → 1 ≤ n ∧ n ≤ 10) ∧
  (∀ n, pf.detection = some n → 1 ≤ n ∧ n ≤ 10)

theorem applyCol_pres (i : Nat) (row : List Cell)
    (st : ParsedFailure × List String × List String) (p : FField × Nat)
    (st2 : ParsedFailure × List String × List String)
    (hok : pfScoresOk st.1) (h : applyCol i row st p = .ok st2) : pfScoresOk st2.1 := by
  unfold applyCol at h
  split at h
  · rename_i hlt
    split at h
    · cases hps : parseScoreE (row.get ⟨p.2, hlt⟩) "gravity" i with
      | error e => rw [hps] at h; simp [Except.map] at h
      | ok r2 =>
        rw [hps] at h
        rcases r2 with ⟨n, ws2, es2⟩
        simp only [Except.map, Except.ok.injEq] at h
        subst h
        refine ⟨?_, hok.2.1, hok.2.2⟩
        intro m hm
        simp only [Option.some.injEq] at hm
        subst hm
        exact parseScoreE_ok_range _ _ _ _ _ _ hps
    · cases hps : parseScoreE (row.get ⟨p.2, hlt⟩) "occurrence" i with
      | error e => rw [hps] at h; simp [Except.map] at h
      | ok r2 =>
        rw [hps] at h
        rcases r2 with ⟨n, ws2, es2⟩
        simp only [Except.map, Except.ok.injEq] at h
        subst h
        refine ⟨hok.1, ?_, hok.2.2⟩
        intro m hm
        simp only [Option.some.injEq] at hm
        subst hm
        exact parseScoreE_ok_range _ _ _ _ _ _ hps
    · cases hps : parseScoreE (row.get ⟨p.2, hlt⟩) "detection" i with
      | error e => rw [hps] at h; simp [Except.map] at h
      | ok r2 =>
        rw [hps] at h
        rcases r2 with ⟨n, ws2, es2⟩
        simp only [Except.map, Except.ok.injEq] at h
        subst h
        refine ⟨hok.1, hok.2.1, ?_⟩
        intro m hm
        simp only [Option.some.injEq] at hm
        subst hm
        exact parseScoreE_ok_range _ _ _ _ _ _ hps
    all_goals
      simp only [Except.ok.injEq] at h
      subst h
      exact hok
  · simp only [Except.ok.injEq] at h
    subst h
    exact hok

theorem exceptBind_ok {α β ε : Type} (a : α) (f : α → Except ε β) :
    (Except.ok a >>= f) = f a := rfl

theorem exceptBind_err {α β ε : Type} (e : ε) (f : α → Except ε β) :
    ((Except.error e : Except ε α) >>= f) = .error e := rfl

theorem foldlM_applyCol_pres (i : Nat) (row : List Cell) :
    ∀ (l : List (FField × Nat)) (st st2 : ParsedFailure × List String × List String),
    pfScoresOk st.1 → List.foldlM (applyCol i row) st l = .ok st2 → pfScoresOk st2.1 := by
  intro l
  induction l with
  | nil =>
    intro st st2 hok h
    simp only [List.foldlM_nil] at h
    cases h
    exact hok
  | cons p rest ih =>
    intro st st2 hok h
    simp only [List.foldlM_cons] at h
    cases happ : applyCol i row st p with
    | error e =>
      rw [happ, exceptBind_err] at h
      exact absurd h (by simp)
    | ok stMid =>
      rw [happ, exceptBind_ok] at h
      exact ih stMid st2 (applyCol_pres i row st p stMid hok happ) h

theorem emptyPF_scoresOk (k : Nat) : pfScoresOk (emptyPF k) := by
  refine ⟨?_, ?_, ?_⟩ <;> intro n hn <;> simp [emptyPF] at hn

theorem scanData_pres (colmap : List (FField × Nat)) :
    ∀ (rows : List (List Cell)) (i : Nat) (st st2 : ExtractState),
    (∀ pf ∈ st.failures, pfScoresOk pf) → scanData colmap i rows st = .ok st2 →
    ∀ pf ∈ st2.failures, pfScoresOk pf := by
  intro rows
  induction rows with
  | nil =>
    intro i st st2 hok h
    simp only [scanData] at h
    cases h
    exact hok
  | cons row rest ih =>
    intro i st st2 hok h
    unfold scanData at h
    split at h
    · exact ih (i + 1) st st2 hok h
    · split at h
      · cases h
        exact hok
      · split at h
        · exact absurd h (by simp)
        · rename_i pf ws es heq
          split at h
          · refine ih (i + 1) _ st2 ?_ h
            intro x hx
            rcases List.mem_append.mp hx with hx1 | hx2
            · exact hok x hx1
            · have hx3 : x = pf := by simpa using hx2
              subst hx3
              exact foldlM_applyCol_pres i row colmap _ _
                (emptyPF_scoresOk st.failures.length) heq
          · exact ih (i + 1)
              ⟨st.failures, st.warnings ++ ws ++ [incompleteMsg i], st.errors ++ es⟩
              st2 hok h

/-- C10: the implicit invariant — every gravity/occurrence/detection value
that `_extract_failures` populates from a mapped column is an integer in
[1,10], for every sheet on which the extraction returns (the score parser
either yields an in-range value or raises, never stores out of range). -/
theorem c10_score_invariant (sheet : List (List Cell)) (st : ExtractState)
    (h : extractFailures sheet = .ok st) :
    ∀ pf ∈ st.failures, pfScoresOk pf := by
  unfold extractFailures at h
  cases hf : findHeader 1 sheet with
  | none =>
    rw [hf] at h
    cases h
    intro pf hpf
    simp at hpf
  | some p =>
    rw [hf] at h
    rcases p with ⟨hidx, colmap⟩
    simp only at h
    split at h
    · cases h
      intro pf hpf
      simp at hpf
    · exact scanData_pres colmap (sheet.drop hidx) (hidx + 1) ⟨[], [], []⟩ st
        (by intro pf hpf; simp at hpf) h

/-- Witness for C10: a sheet whose data row carries an out-of-range score
15; the extracted record holds the clamped value 10 and satisfies the
invariant. -/
theorem c10_score_invariant_witness :
    pfScoresOk ⟨some "P", some "M", none, none, some 10, none, none, none, 0⟩ :=
  c10_score_invariant
    [[Cell.s "Composant", Cell.s "Mode de Défaillance", Cell.s "Gravité (G)"],
     [Cell.s "P", Cell.s "M", Cell.i 15]]
    ⟨[⟨some "P", some "M", none, none, some 10, none, none, none, 0⟩],
      [scoreWarnMsg 2 "gravity" 15], []⟩ (by decide)
    ⟨some "P", some "M", none, none, some 10, none, none, none, 0⟩ (by simp)

/-- A parsed failure that `validate_data` accepts: truthy component and
failure mode, and all three scores present in [1,10]. -/
def pfComplete (pf : ParsedFailure) : Prop :=
  optTruthy pf.component = true ∧ optTruthy pf.failure_mode = true ∧
  (∃ g, pf.gravity = some g ∧ 1 ≤ g ∧ g ≤ 10) ∧
  (∃ o, pf.occurrence = some o ∧ 1 ≤ o ∧ o ≤ 10) ∧
  (∃ d, pf.detection = some d ∧ 1 ≤ d ∧ d ≤ 10)

theorem failureErrs_nil (idx : Nat) (pf : ParsedFailure) (h : pfComplete pf) :
    failureErrs idx pf = [] := by
  obtain ⟨hc, hm, ⟨g, hgeq, hg1, hg2⟩, ⟨o, hoeq, ho1, ho2⟩, ⟨d, hdeq, hd1, hd2⟩⟩ := h
  unfold failureErrs
  rw [hgeq, hoeq, hdeq]
  simp [scoreFieldErrs, hc, hm, hg1, hg2, ho1, ho2, hd1, hd2]

theorem allFailureErrs_nil : ∀ (fs : List ParsedFailure) (i : Nat),
    (∀ pf ∈ fs, pfComplete pf) → allFailureErrs i fs = [] := by
  intro fs
  induction fs with
  | nil => intro i _; rfl
  | cons pf rest ih =>
    intro i hall
    unfold allFailureErrs
    rw [failureErrs_nil i pf (hall pf (by simp)), ih (i + 1) (fun x hx => hall x (by simp [hx]))]
    rfl

/-- C6 counterexample: a parse result with one fully valid failure row but
an empty system name makes `validate_data` fail (and not with the
"no failures found" error), so "the validate step succeeds if at least one
valid row remains" is false as stated. -/
theorem c6_counterexample :
    validateData ⟨"", ⟨2024, 1, 1⟩, "", "", "", "R"⟩
        [⟨some "C", some "M", none, none, some 5, some 5, some 5, none, 0⟩] =
      (false, ["Nom du système manquant"]) ∧
    failureErrs 1 ⟨some "C", some "M", none, none, some 5, some 5, some 5, none, 0⟩ = [] := by
  constructor
  · decide
  · decide

/-- C6 amended: (a) a scanned data row whose populated fields lack a
truthy component or failure mode is dropped — the failure list is
unchanged — with exactly one "Données incomplètes ignorées" warning naming
its row number (after any score messages of that row), and scanning
continues with the next row, PROVIDED the row's mapped score cells parse
without raising; (a2) when a score cell of the row raises in the score
parser (an uncaught `OverflowError`, e.g. the cell `"inf"`), the whole
parse aborts with that exception instead; (b) when no failures remain,
`validate_data` fails with the "Aucune défaillance trouvée dans le
fichier" error; (c) when at least one row remains, it succeeds provided
the metadata has a system name and every remaining failure has truthy
component/failure_mode and in-range scores. -/
theorem c6_amended :
    (∀ (colmap : List (FField × Nat)) (i : Nat) (row : List Cell)
        (rest : List (List Cell)) (st : ExtractState) (pf : ParsedFailure)
        (ws es : List String),
      (row = [] || !(row.any Cell.truthy)) = false →
      isStopRow row = false →
      List.foldlM (applyCol i row) (emptyPF st.failures.length, [], []) colmap =
        .ok (pf, ws, es) →
      (optTruthy pf.component && optTruthy pf.failure_mode) = false →
      scanData colmap i (row :: rest) st =
        scanData colmap (i + 1) rest
          ⟨st.failures, st.warnings ++ ws ++ [incompleteMsg i], st.errors ++ es⟩) ∧
    (∀ (colmap : List (FField × Nat)) (i : Nat) (row : List Cell)
        (rest : List (List Cell)) (st : ExtractState) (e : PyErr),
      (row = [] || !(row.any Cell.truthy)) = false →
      isStopRow row = false →
      List.foldlM (applyCol i row) (emptyPF st.failures.length, [], []) colmap =
        .error e →
      scanData colmap i (row :: rest) st = .error e) ∧
    (∀ (m : Metadata) (fs : List ParsedFailure), fs = [] →
      validateData m fs =
        (false, (if m.system_name = "" then ["Nom du système manquant"] else []) ++
          [noFailuresMsg])) ∧
    (∀ (m : Metadata) (fs : List ParsedFailure), fs ≠ [] → m.system_name ≠ "" →
      (∀ pf ∈ fs, pfComplete pf) → validateData m fs = (true, [])) := by
  refine ⟨?_, ?_, ?_, ?_⟩
  · intro colmap i row rest st pf ws es hskip hstop hfold hinc
    conv_lhs => rw [scanData]
    rw [hskip]
    simp only [Bool.false_eq_true, if_false]
    rw [hstop]
    simp only [Bool.false_eq_true, if_false]
    rw [hfold]
    simp only [hinc, Bool.false_eq_true, if_false]
  · intro colmap i row rest st e hskip hstop hfold
    conv_lhs => rw [scanData]
    rw [hskip]
    simp only [Bool.false_eq_true, if_false]
    rw [hstop]
    simp only [Bool.false_eq_true, if_false]
    rw [hfold]
  · intro m fs hfs
    subst hfs
    unfold validateData
    rw [if_pos rfl]
  · intro m fs hfs hsys hall
    unfold validateData
    rw [if_neg hfs, if_neg hsys, allFailureErrs_nil fs 1 hall]
    simp

/-- Witness for C6 amended: a one-column sheet row lacking a failure mode
is dropped with its row-4 warning; a row whose gravity cell is `"inf"`
aborts the parse; an empty result fails validation; a good single-row
result passes. -/
theorem c6_amended_witness :
    scanData [(FField.component, 0)] 4 [[Cell.s "x"]] ⟨[], [], []⟩ =
      scanData [(FField.component, 0)] 5 []
        ⟨[], [] ++ [] ++ [incompleteMsg 4], [] ++ []⟩ ∧
    scanData [(FField.gravity, 0)] 4 [[Cell.s "inf"]] ⟨[], [], []⟩ =
      .error .overflowError ∧
    validateData ⟨"S", ⟨2024, 1, 1⟩, "", "", "", "R"⟩ [] =
      (false, (if ("S" : String) = "" then ["Nom du système manquant"] else []) ++
        [noFailuresMsg]) ∧
    validateData ⟨"S", ⟨2024, 1, 1⟩, "", "", "", "R"⟩
      [⟨some "C", some "M", none, none, some 5, some 5, some 5, none, 0⟩] = (true, []) := by
  refine ⟨?_, ?_, ?_, ?_⟩
  · exact c6_amended.1 [(FField.component, 0)] 4 [Cell.s "x"] [] ⟨[], [], []⟩
      ⟨some "x", none, none, none, none, none, none, none, 0⟩ [] []
      (by decide) (by decide) (by decide) (by decide)
  · exact c6_amended.2.1 [(FField.gravity, 0)] 4 [Cell.s "inf"] [] ⟨[], [], []⟩
      PyErr.overflowError (by decide) (by decide) (by decide)
  · exact c6_amended.2.2.1 ⟨"S", ⟨2024, 1, 1⟩, "", "", "", "R"⟩ [] rfl
  · exact c6_amended.2.2.2 ⟨"S", ⟨2024, 1, 1⟩, "", "", "", "R"⟩
      [⟨some "C", some "M", none, none, some 5, some 5, some 5, none, 0⟩]
      (by simp) (by simp)
      (by
        intro pf hpf
        have hp : pf = ⟨some "C", some "M", none, none, some 5, some 5, some 5, none, 0⟩ := by
          simpa using hpf
        subst hp
        exact ⟨by decide, by decide, ⟨5, rfl, by decide, by decide⟩,
          ⟨5, rfl, by decide, by decide⟩, ⟨5, rfl, by decide, by decide⟩⟩)

/-! ### Failure-table export (`ExcelExporter.generate_failures_sheet`) -/

/-- `x or ''` on an optional text field. -/
def orEmpty : Option String → String
  | none => ""
  | some s => s

/-- The Django ordering `order_by('-gravity', '-occurrence', '-detection')`
as a total preorder. -/
def expGE (a b : FailureRec) : Prop :=
  b.gravity < a.gravity ∨ (a.gravity = b.gravity ∧
    (b.occurrence < a.occurrence ∨ (a.occurrence = b.occurrence ∧
      b.detection ≤ a.detection)))

instance : DecidableRel expGE := fun a b => by unfold expGE; infer_instance

def sortFailures (fs : List FailureRec) : List FailureRec := fs.insertionSort expGE

/-- The ten header cells of the exported "Analyse AMDEC" sheet. -/
def exportHeaders : List Cell :=
  [.s "Composant", .s "Mode de Défaillance", .s "Cause Potentielle", .s "Effet",
   .s "Gravité (G)", .s "Occurrence (O)", .s "Détection (D)", .s "Criticité (C)",
   .s "Niveau de Criticité", .s "Actions Préventives"]

/-- One exported data row of the failure table. -/
def failureRow (f : FailureRec) : List Cell :=
  [.s f.component, .s f.failure_mode, .s f.potential_cause, .s f.effect,
   .i f.gravity, .i f.occurrence, .i f.detection, .i f.criticality,
   .s f.criticality_level, .s (orEmpty f.preventive_actions)]

def exportTitle (reference name : String) : String :=
  reference ++ " - " ++ name ++ "\nANALYSE DES MODES DE DÉFAILLANCE"

/-- The cell grid of the exported failure-table sheet: merged title row,
blank row 2, header row 3, then the failures sorted by descending
gravity/occurrence/detection. -/
def exportFailuresGrid (reference name : String) (fs : List FailureRec) :
    List (List Cell) :=
  ([Cell.s (exportTitle reference name)] ++ List.replicate 9 Cell.empty) ::
    List.replicate 10 Cell.empty ::
    exportHeaders :: (sortFailures fs).map failureRow

/-- The column map the importer derives from the exported header row. -/
def expectedColMap : List (FField × Nat) :=
  [(.component, 0), (.failure_mode, 1), (.potential_cause, 2), (.effect, 3),
   (.gravity, 4), (.occurrence, 5), (.detection, 6), (.preventive_actions, 9)]

def frTuple (f : FailureRec) : String × String × Int × Int × Int :=
  (f.component, f.failure_mode, f.gravity, f.occurrence, f.detection)

def pfTuple (pf : ParsedFailure) : String × String × Int × Int × Int :=
  (pf.component.getD "", pf.failure_mode.getD "", pf.gravity.getD 0,
    pf.occurrence.getD 0, pf.detection.getD 0)

theorem intFloatStr_valid (n : Int) (h1 : 1 ≤ n) (h2 : n ≤ 10) :
    intFloatStr (.i n) = .ok n := by
  interval_cases n <;> decide

theorem parseScoreE_valid (n : Int) (fld : String) (r : Nat) (h1 : 1 ≤ n) (h2 : n ≤ 10) :
    parseScoreE (.i n) fld r = .ok (n, [], []) := by
  rw [parseScoreE_spec, intFloatStr_valid n h1 h2]
  exact if_pos ⟨h1, h2⟩

/-- What `_clean_text` leaves of an exported text cell. -/
def txtConv (s : String) : String :=
  if (Cell.s s).truthy then cleanTextI (.s s) else ""

/-- The parsed failure the importer reconstructs from an exported data
row (under the hypotheses of the round-trip theorem). -/
def convPF (k : Nat) (f : FailureRec) : ParsedFailure :=
  ⟨some f.component, some f.failure_mode, some (txtConv f.potential_cause),
   some (txtConv f.effect), some f.gravity, some f.occurrence, some f.detection,
   some (txtConv (orEmpty f.preventive_actions)), k⟩

/-- A failure record that round-trips: component and failure mode are
non-empty fixed points of the cleaner, the scores are in range, and the
component contains no summary stop keyword. -/
def cleanFR (f : FailureRec) : Prop :=
  cleanTextI (.s f.component) = f.component ∧ f.component ≠ "" ∧
  cleanTextI (.s f.failure_mode) = f.failure_mode ∧ f.failure_mode ≠ "" ∧
  1 ≤ f.gravity ∧ f.gravity ≤ 10 ∧ 1 ≤ f.occurrence ∧ f.occurrence ≤ 10 ∧
  1 ≤ f.detection ∧ f.detection ≤ 10 ∧
  (∀ kw ∈ stopKeywords, containsSub (pyLower f.component) kw = false)

theorem foldRow (i k : Nat) (f : FailureRec) (h : cleanFR f) :
    List.foldlM (applyCol i (failureRow f)) (emptyPF k, [], []) expectedColMap =
      .ok (convPF k f, [], []) := by
  obtain ⟨hcl, hcne, hml, hmne, hg1, hg2, ho1, ho2, hd1, hd2, hstp⟩ := h
  have htc : (Cell.s f.component).truthy = true := by simp [Cell.truthy, hcne]
  have htm : (Cell.s f.failure_mode).truthy = true := by simp [Cell.truthy, hmne]
  have hgv := parseScoreE_valid f.gravity "gravity" i hg1 hg2
  have hov := parseScoreE_valid f.occurrence "occurrence" i ho1 ho2
  have hdv := parseScoreE_valid f.detection "detection" i hd1 hd2
  simp only [expectedColMap, List.foldlM_cons, List.foldlM_nil]
  simp only [applyCol, failureRow, List.length_cons, List.length_nil, List.get]
  simp only [show (0:Nat) < 10 by norm_num, show (1:Nat) < 10 by norm_num,
    show (2:Nat) < 10 by norm_num, show (3:Nat) < 10 by norm_num,
    show (4:Nat) < 10 by norm_num, show (5:Nat) < 10 by norm_num,
    show (6:Nat) < 10 by norm_num, show (9:Nat) < 10 by norm_num, dif_pos]
  simp only [htc, htm, if_true, hcl, hml, hgv, hov, hdv, Except.map, exceptBind_ok]
  simp [convPF, txtConv, emptyPF, pure, Except.pure]

theorem scanData_export : ∀ (fs : List FailureRec) (i : Nat) (st : ExtractState),
    (∀ f ∈ fs, cleanFR f) →
    ∃ pfs : List ParsedFailure,
      scanData expectedColMap i (fs.map failureRow) st =
        .ok ⟨st.failures ++ pfs, st.warnings, st.errors⟩ ∧
      pfs.map pfTuple = fs.map frTuple := by
  intro fs
  induction fs with
  | nil =>
    intro i st _
    exact ⟨[], by simp [scanData], rfl⟩
  | cons f rest ih =>
    intro i st hall
    have hf := hall f (by simp)
    obtain ⟨hcl, hcne, hml, hmne, hg1, hg2, ho1, ho2, hd1, hd2, hstp⟩ := hf
    have hskip : ((failureRow f) = [] || !((failureRow f).any Cell.truthy)) = false := by
      simp [failureRow, Cell.truthy, hcne]
    have hstop : isStopRow (failureRow f) = false := by
      have h1 := hstp "résumé" (by simp [stopKeywords])
      have h2 := hstp "total" (by simp [stopKeywords])
      have h3 := hstp "criticité élevée" (by simp [stopKeywords])
      have h4 := hstp "criticité modérée" (by simp [stopKeywords])
      simp [isStopRow, failureRow, Cell.truthy, hcne, stopKeywords, Cell.pyStr,
        h1, h2, h3, h4]
    have hcomplete : (optTruthy (convPF st.failures.length f).component &&
        optTruthy (convPF st.failures.length f).failure_mode) = true := by
      simp [convPF, optTruthy, hcne, hmne]
    obtain ⟨pfs2, heq2, htup2⟩ := ih (i + 1)
      ⟨st.failures ++ [convPF st.failures.length f], st.warnings, st.errors⟩
      (fun x hx => hall x (by simp [hx]))
    refine ⟨convPF st.failures.length f :: pfs2, ?_, ?_⟩
    · rw [show (f :: rest).map failureRow = failureRow f :: rest.map failureRow from rfl]
      conv_lhs => rw [scanData]
      rw [hskip]
      simp only [Bool.false_eq_true, if_false]
      rw [hstop]
      simp only [Bool.false_eq_true, if_false]
      rw [foldRow i st.failures.length f
        ⟨hcl, hcne, hml, hmne, hg1, hg2, ho1, ho2, hd1, hd2, hstp⟩]
      simp only [hcomplete, if_true]
      rw [show st.warnings ++ [] = st.warnings from by simp,
        show st.errors ++ [] = st.errors from by simp]
      rw [heq2]
      simp [List.append_assoc]
    · rw [show (convPF st.failures.length f :: pfs2).map pfTuple =
        pfTuple (convPF st.failures.length f) :: pfs2.map pfTuple from rfl]
      rw [htup2]
      rfl

theorem findHeader_grid (reference name : String) (fs : List FailureRec)
    (hti : isHeaderRow ([Cell.s (exportTitle reference name)] ++
      List.replicate 9 Cell.empty) = false) :
    findHeader 1 (exportFailuresGrid reference name fs) = some (3, expectedColMap) := by
  unfold exportFailuresGrid
  conv_lhs => rw [findHeader]
  rw [if_neg (by simp)]
  rw [hti]
  simp only [Bool.false_eq_true, if_false]
  conv_lhs => rw [findHeader]
  rw [if_neg (by decide), show isHeaderRow (List.replicate 10 Cell.empty) = false from
    by decide]
  simp only [Bool.false_eq_true, if_false]
  conv_lhs => rw [findHeader]
  rw [if_neg (by decide), show isHeaderRow exportHeaders = true from by decide]
  simp only [if_true]
  rw [show buildColMap exportHeaders = expectedColMap from by decide]

/-- C7 counterexample: a failure whose component is "Total" (non-empty,
valid scores) is treated as the trailing summary marker on re-import: the
scan stops there and the round-trip loses the record entirely. -/
theorem c7_counterexample :
    extractFailures (exportFailuresGrid "R" "N"
      [⟨"Total", "M", "", "", 5, 5, 5, none, none, none⟩]) = .ok ⟨[], [], []⟩ ∧
    ("Total" : String) ≠ "" ∧ ("M" : String) ≠ "" := by
  refine ⟨?_, by decide, by decide⟩
  decide

/-- C7 amended: exporting a project and re-importing its failure sheet
reproduces the multiset of (component, failure_mode, gravity, occurrence,
detection) tuples, provided each failure's component and failure mode are
non-empty fixed points of the importer's cleaner, scores are in [1,10],
no component's lowered text contains a summary stop keyword, and the
export title row does not itself satisfy the header-detection
predicate. -/
theorem c7_amended (reference name : String) (fs : List FailureRec)
    (hti : isHeaderRow ([Cell.s (exportTitle reference name)] ++
      List.replicate 9 Cell.empty) = false)
    (hok : ∀ f ∈ fs, cleanFR f) :
    ∃ st : ExtractState,
      extractFailures (exportFailuresGrid reference name fs) = .ok st ∧
      (st.failures.map pfTuple).Perm (fs.map frTuple) := by
  have hfh := findHeader_grid reference name fs hti
  unfold extractFailures
  rw [hfh]
  simp only [show (expectedColMap = []) = False from by simp [expectedColMap],
    if_false]
  have hdrop : (exportFailuresGrid reference name fs).drop 3 =
      (sortFailures fs).map failureRow := rfl
  rw [hdrop]
  obtain ⟨pfs, heq, htup⟩ := scanData_export (sortFailures fs) 4 ⟨[], [], []⟩
    (fun f hf => hok f ((List.perm_insertionSort expGE fs).subset hf))
  rw [heq]
  refine ⟨_, rfl, ?_⟩
  rw [show (ExtractState.mk ([] ++ pfs) [] []).failures = pfs from by simp]
  rw [htup]
  exact (List.perm_insertionSort expGE fs).map frTuple

/-- Witness for C7 at a two-failure project. -/
theorem c7_amended_witness :
    ∃ st : ExtractState,
      extractFailures (exportFailuresGrid "REF-001" "Pompes"
        [⟨"Pompe", "Fuite", "Usure", "Perte", 9, 8, 7, some "Inspection", none, none⟩,
         ⟨"Joint", "Rupture", "", "", 5, 5, 4, none, none, none⟩]) = .ok st ∧
      (st.failures.map pfTuple).Perm
        ([⟨"Pompe", "Fuite", "Usure", "Perte", 9, 8, 7, some "Inspection", none, none⟩,
          ⟨"Joint", "Rupture", "", "", 5, 5, 4, none, none, none⟩].map frTuple) := by
  refine c7_amended "REF-001" "Pompes" _ (by decide) ?_
  intro f hf
  simp only [List.mem_cons, List.mem_singleton, List.not_mem_nil, or_false] at hf
  rcases hf with hf | hf <;> subst hf <;>
    exact ⟨by decide, by decide, by decide, by decide, by decide, by decide, by decide,
      by decide, by decide, by decide, by decide⟩

/-! ### Action-plan export (`ExcelExporter.generate_actions_sheet`) -/

/-- A worksheet modelled as the list of (row, column) ↦ value writes. -/
abbrev Ws := List ((Nat × Nat) × Cell)

/-- Read a cell: the last write wins; unwritten cells read as empty. -/
def wsGet (ws : Ws) (p : Nat × Nat) : Cell :=
  (((ws.reverse).find? (fun q => q.1 = p)).map (fun q => q.2)).getD .empty

/-- `x or default` on an optional text field. -/
def orDefault : Option String → String → String
  | none, dflt => dflt
  | some s, dflt => if s = "" then dflt else s

/-- `deadline.strftime('%d/%m/%Y') if deadline else 'À planifier'`. -/
def deadlineStr : Option PyDate → String
  | none => "À planifier"
  | some dt => String.mk (pad2 dt.day ++ ['/'] ++ pad2 dt.month ++ ['/'] ++ pad4 dt.year)

/-- The six column headers of both action tables. -/
def actionHeaderCells (rn : Nat) : Ws :=
  [((rn, 1), .s "Composant"), ((rn, 2), .s "Défaillance"), ((rn, 3), .s "Criticité"),
   ((rn, 4), .s "Actions Recommandées"), ((rn, 5), .s "Responsable"),
   ((rn, 6), .s "Échéance")]

/-- One data row of the immediate-actions table (all six columns). -/
def highRowCells (rn : Nat) (f : FailureRec) : Ws :=
  [((rn, 1), .s f.component), ((rn, 2), .s f.failure_mode), ((rn, 3), .i f.criticality),
   ((rn, 4), .s (orDefault f.preventive_actions "À définir")),
   ((rn, 5), .s (orDefault f.responsible "À assigner")),
   ((rn, 6), .s (deadlineStr f.deadline))]

/-- One data row of the medium-term table: the source writes only columns
1, 5 and 6 (failure mode, criticality and actions are left unwritten). -/
def mediumRowCells (rn : Nat) (f : FailureRec) : Ws :=
  [((rn, 1), .s f.component),
   ((rn, 5), .s (orDefault f.responsible "À assigner")),
   ((rn, 6), .s (deadlineStr f.deadline))]

def rowsOf (mk : Nat → FailureRec → Ws) : Nat → List FailureRec → Ws
  | _, [] => []
  | rn, f :: rest => mk rn f ++ rowsOf mk (rn + 1) rest

/-- `ExcelExporter.generate_actions_sheet` (cell values only; styling,
merges and widths are not modelled).  `fs` is the project's failure list
in its manager order.  The `headers` local is bound only inside the
`if high_failures:` block, so a project with medium-criticality failures
and no high-criticality ones raises a `NameError` at the medium table. -/
def generateActionsSheet (fs : List FailureRec) : Except PyErr Ws :=
  let high := fs.filter (fun f => 120 < f.criticality)
  let medium := fs.filter (fun f => 61 ≤ f.criticality ∧ f.criticality ≤ 120)
  let base : Ws := [((1, 1), .s "PLAN D'ACTIONS PRIORITAIRES"),
    ((3, 1), .s "ACTIONS IMMÉDIATES (Criticité > 120)")]
  let hb : Ws × Nat :=
    if high = [] then ([((4, 1), .s "Aucune défaillance de criticité élevée")], 5)
    else (actionHeaderCells 4 ++ rowsOf highRowCells 5 high, 5 + high.length)
  let rnMed := hb.2 + 2
  let secMed : Ws := [((rnMed, 1), .s "ACTIONS À MOYEN TERME (Criticité 61-120)")]
  let mb : Except PyErr Ws :=
    if medium = [] then .ok [((rnMed + 1, 1), .s "Aucune défaillance de criticité modérée")]
    else if high = [] then .error .nameError
    else .ok (actionHeaderCells (rnMed + 1) ++ rowsOf mediumRowCells (rnMed + 2) medium)
  match mb with
  | .error e => .error e
  | .ok mws => .ok (base ++ hb.1 ++ secMed ++ mws)

/-- C2: evaluated at a project with one high failure (10,10,10) and one
medium failure "Pompe"/"Fuite" with criticality 100: the failures are
partitioned as claimed and the high row lists all six fields, but the
medium data row (row 10) leaves the failure_mode, criticality and
preventive-actions cells empty even though its header row (row 9)
announces those columns — it writes only component, responsible and
deadline. -/
theorem c2_medium_columns_eval :
    ((generateActionsSheet
      [⟨"A", "AM", "", "", 10, 10, 10, none, none, none⟩,
       ⟨"Pompe", "Fuite", "", "", 5, 5, 4, some "Vidange", none, none⟩]).map
        (fun ws => wsGet ws (5, 1)) = .ok (.s "A") ∧
     (generateActionsSheet
      [⟨"A", "AM", "", "", 10, 10, 10, none, none, none⟩,
       ⟨"Pompe", "Fuite", "", "", 5, 5, 4, some "Vidange", none, none⟩]).map
        (fun ws => wsGet ws (5, 2)) = .ok (.s "AM") ∧
     (generateActionsSheet
      [⟨"A", "AM", "", "", 10, 10, 10, none, none, none⟩,
       ⟨"Pompe", "Fuite", "", "", 5, 5, 4, some "Vidange", none, none⟩]).map
        (fun ws => wsGet ws (5, 3)) = .ok (.i 1000) ∧
     (generateActionsSheet
      [⟨"A", "AM", "", "", 10, 10, 10, none, none, none⟩,
       ⟨"Pompe", "Fuite", "", "", 5, 5, 4, some "Vidange", none, none⟩]).map
        (fun ws => wsGet ws (5, 4)) = .ok (.s "À définir")) ∧
    ((generateActionsSheet
      [⟨"A", "AM", "", "", 10, 10, 10, none, none, none⟩,
       ⟨"Pompe", "Fuite", "", "", 5, 5, 4, some "Vidange", none, none⟩]).map
        (fun ws => wsGet ws (9, 2)) = .ok (.s "Défaillance") ∧
     (generateActionsSheet
      [⟨"A", "AM", "", "", 10, 10, 10, none, none, none⟩,
       ⟨"Pompe", "Fuite", "", "", 5, 5, 4, some "Vidange", none, none⟩]).map
        (fun ws => wsGet ws (9, 4)) = .ok (.s "Actions Recommandées")) ∧
    ((generateActionsSheet
      [⟨"A", "AM", "", "", 10, 10, 10, none, none, none⟩,
       ⟨"Pompe", "Fuite", "", "", 5, 5, 4, some "Vidange", none, none⟩]).map
        (fun ws => wsGet ws (10, 1)) = .ok (.s "Pompe") ∧
     (generateActionsSheet
      [⟨"A", "AM", "", "", 10, 10, 10, none, none, none⟩,
       ⟨"Pompe", "Fuite", "", "", 5, 5, 4, some "Vidange", none, none⟩]).map
        (fun ws => wsGet ws (10, 2)) = .ok .empty ∧
     (generateActionsSheet
      [⟨"A", "AM", "", "", 10, 10, 10, none, none, none⟩,
       ⟨"Pompe", "Fuite", "", "", 5, 5, 4, some "Vidange", none, none⟩]).map
        (fun ws => wsGet ws (10, 3)) = .ok .empty ∧
     (generateActionsSheet
      [⟨"A", "AM", "", "", 10, 10, 10, none, none, none⟩,
       ⟨"Pompe", "Fuite", "", "", 5, 5, 4, some "Vidange", none, none⟩]).map
        (fun ws => wsGet ws (10, 4)) = .ok .empty ∧
     (generateActionsSheet
      [⟨"A", "AM", "", "", 10, 10, 10, none, none, none⟩,
       ⟨"Pompe", "Fuite", "", "", 5, 5, 4, some "Vidange", none, none⟩]).map
        (fun ws => wsGet ws (10, 5)) = .ok (.s "À assigner") ∧
     (generateActionsSheet
      [⟨"A", "AM", "", "", 10, 10, 10, none, none, none⟩,
       ⟨"Pompe", "Fuite", "", "", 5, 5, 4, some "Vidange", none, none⟩]).map
        (fun ws => wsGet ws (10, 6)) = .ok (.s "À planifier")) := by
  exact ⟨⟨by decide, by decide, by decide, by decide⟩,
    ⟨by decide, by decide⟩,
    ⟨by decide, by decide, by decide, by decide, by decide, by decide⟩⟩

end Amdec
